import Mathlib

/-!
# Verification of the LexAgents legal-reference extraction pipeline

Shallow embedding of the core of `686f6c61/lexagents` (Python) in Lean 4.

Conventions used throughout:

* Python dictionaries holding a reference become the structure `LexAgents.Ref`;
  a dict key that may be absent becomes an `Option` field (the Python key
  `'_validada'` becomes the field `validada`, and so on, dropping the leading
  underscore).
* `d.get(k, default)` becomes `field.getD default`; `x or ''` becomes `pyStr`.
* Every LLM call and every HTTP request appears as an explicit oracle
  parameter (a plain function argument).  All surrounding control flow is
  translated directly from the source.
* Recursion that Python expresses with unbounded loops is expressed with an
  explicit structural fuel argument so that all definitions evaluate inside
  the kernel.
-/

namespace LexAgents

/-- Python `(x or '')` for an optional string (both `None` and `''` are falsy). -/
def pyStr (o : Option String) : String := o.getD ""

/-- Python truthiness of an optional string: `None` and `''` are falsy. -/
def truthyS (o : Option String) : Option String :=
  match o with
  | some "" => none
  | x => x

/-- Python `a or b` on optional strings (returns `a` when truthy, else `b`). -/
def pyOrS (a b : Option String) : Option String :=
  match truthyS a with
  | some _ => a
  | none => b

/-- Kernel-evaluable `str.lower()` (ASCII case folding via `Char.toLower`,
which is what the source relies on for its ASCII keys; accented characters
pass through unchanged on both sides for the data in this file).  The core
`String.toLower` recurses on byte positions and does not reduce inside the
kernel, hence this list-based equivalent. -/
def toLowerS (s : String) : String := ⟨s.data.map Char.toLower⟩

/-- Kernel-evaluable `str.upper()`. -/
def toUpperS (s : String) : String := ⟨s.data.map Char.toUpper⟩

/-- Kernel-evaluable `str.strip()`. -/
def trimS (s : String) : String :=
  ⟨((s.data.dropWhile Char.isWhitespace).reverse.dropWhile
      Char.isWhitespace).reverse⟩

/-- Embeds `.lower().strip()` applied to a possibly missing string, as used
by the convergence deduplication (`convergencia.py`). -/
def normKey (o : Option String) : String := trimS (toLowerS (pyStr o))

/-- Provenance stamped on a reference by the convergence engine
(`convergencia.py`, key `'_metadata'`).  The wall-clock `timestamp` of the
source is not representable and is omitted. -/
structure Metadata where
  encontrado_por : String
  ronda : Nat
deriving DecidableEq, Repr

/-- The dict `'_metadata_validacion'` written by `validator_agent.py`. -/
structure MetaVal where
  validada : Option Bool := none
  motivo : Option String := none
  boe_id : Option String := none
  boe_url : Option String := none
  articulo_formato_valido : Option Bool := none
  articulo_verificado_boe : Option Bool := none
  /-- key present (outer `Option`) with value `None`/`True`/`False` (inner). -/
  articulo_existe_boe : Option (Option Bool) := none
  articulo_texto_oficial : Option (Option String) := none
  error_verificacion : Option String := none
deriving DecidableEq, Repr

/-- The dict `'_metadata_normalizacion'` written by `normalizer_agent.py`. -/
structure MetaNorm where
  tiene_boe_id : Bool := false
  tiene_articulo : Bool := false
  categoria : String := ""
deriving DecidableEq, Repr

/-- A legal reference record: the dynamic dict flowing through the pipeline,
with one field per key the embedded code reads or writes.  Python keys with a
leading underscore lose the underscore here. -/
structure Ref where
  texto_completo : Option String := none
  texto : Option String := none
  tipo : Option String := none
  ley : Option String := none
  ley_nombre : Option String := none
  ley_normalizada : Option String := none
  ley_titulo_completo : Option String := none
  articulo : Option String := none
  confianza : Option Nat := none
  boe_id : Option String := none
  celex : Option String := none
  significado_completo : Option String := none
  sigla_original : Option String := none
  nombre_completo : Option String := none
  texto_normalizado : Option String := none
  texto_oficial_boe : Option (Option String) := none
  tipo_ley : Option String := none
  expandida : Bool := false
  ambigua_resuelta : Bool := false
  normalizada : Bool := false
  europea : Bool := false
  normalizado_ia : Bool := false
  validada : Option Bool := none
  metadata : Option Metadata := none
  metadata_validacion : Option MetaVal := none
  metadata_normalizacion : Option MetaNorm := none
deriving DecidableEq, Repr

/-! ## Convergence engine (`agents/convergencia.py`) -/

/-- Embeds `SistemaConvergencia.__init__` default for `umbral_confianza_minima`. -/
def SistemaConvergencia.default_umbral : Nat := 60

/-- Embeds `SistemaConvergencia.__init__` default for `max_rondas`. -/
def SistemaConvergencia.default_max_rondas : Nat := 7

/-- Embeds `SistemaConvergencia._es_duplicado`: a candidate is a duplicate when some
accumulated reference shares its (non-empty, lower-cased, stripped)
`texto_completo` or `ley`. -/
def es_duplicado (referencias_totales : List Ref) (referencia : Ref) : Bool :=
  let texto_nuevo := normKey referencia.texto_completo
  let ley_nueva := normKey referencia.ley
  referencias_totales.any fun ref_existente =>
    let texto_existente := normKey ref_existente.texto_completo
    let ley_existente := normKey ref_existente.ley
    (texto_nuevo ≠ "" && texto_nuevo == texto_existente) ||
    (ley_nueva ≠ "" && ley_nueva == ley_existente)

/-- Inner accumulator loop of `SistemaConvergencia._deduplicar_simple`. -/
def deduplicar_simple_go : List Ref → List String → List Ref → List Ref
  | [], _, unicas => unicas.reverse
  | ref :: resto, textos_vistos, unicas =>
    let texto := trimS (toLowerS (pyStr ref.texto_completo))
    if texto ≠ "" && !(textos_vistos.contains texto) then
      deduplicar_simple_go resto (texto :: textos_vistos) (ref :: unicas)
    else
      deduplicar_simple_go resto textos_vistos unicas

/-- Embeds `SistemaConvergencia._deduplicar_simple`: exact-text deduplication. -/
def deduplicar_simple (referencias : List Ref) : List Ref :=
  deduplicar_simple_go referencias [] []

/-- Embeds `SistemaConvergencia._deduplicar_con_ia`.  The LLM call together with
`_parsear_respuesta_deduplicacion` is the oracle `ia`: `.error` models the
`except` branch (fall back to simple dedup), `.ok indices` the parsed
`indices_unicos` (a JSON-parse failure corresponds to `.ok (range n)`). -/
def deduplicar_con_ia (ia : List Ref → Except Unit (List Nat))
    (referencias : List Ref) : List Ref :=
  if referencias.length ≤ 1 then referencias
  else
    match ia referencias with
    | .error _ => deduplicar_simple referencias
    | .ok indices =>
      let indices_validos := indices.filter (fun i => i < referencias.length)
      indices_validos.filterMap (fun i => referencias[i]?)

/-- Embeds `SistemaConvergencia._deduplicar_semanticamente`. -/
def deduplicar_semanticamente (ia : List Ref → Except Unit (List Nat))
    (referencias : List Ref) : List Ref :=
  if referencias.length ≤ 1 then referencias
  else if referencias.length ≤ 20 then deduplicar_con_ia ia referencias
  else
    let unicas_simples := deduplicar_simple referencias
    if unicas_simples.length > 20 then unicas_simples
    else deduplicar_con_ia ia unicas_simples

/-- Result dict of `ExtractorAgent{A,B,C}.procesar`. -/
structure AgentResult where
  referencias : List Ref
  total : Nat
  agente : String
  ronda : Nat
  error : Option String := none
deriving DecidableEq, Repr

/-- Inner loop of `ExtractorAgentA._filtrar_duplicados` (identical in agents
B and C): keep references whose normalized text is non-empty and unseen,
recording each kept text. -/
def filtrar_duplicados_go : List Ref → List String → List Ref → List Ref
  | [], _, acc => acc.reverse
  | ref :: resto, textos_previos, acc =>
    let texto := trimS (toLowerS (pyStr (pyOrS ref.texto_completo ref.texto)))
    if texto ≠ "" && !(textos_previos.contains texto) then
      filtrar_duplicados_go resto (texto :: textos_previos) (ref :: acc)
    else
      filtrar_duplicados_go resto textos_previos acc

/-- Embeds `ExtractorAgentA._filtrar_duplicados`. -/
def filtrar_duplicados (referencias_nuevas referencias_previas : List Ref) :
    List Ref :=
  let textos_previos := (referencias_previas.map
    (fun ref => trimS (toLowerS (pyStr (pyOrS ref.texto_completo ref.texto))))).filter
    (fun t => t ≠ "")
  filtrar_duplicados_go referencias_nuevas textos_previos []

/-- Embeds `ExtractorAgentA.procesar` (agents B and C share the same structure).
The LLM call `generar_contenido` composed with `_parsear_respuesta` (including
its regex fallback) is the oracle `llm`; the `except Exception` branch of the
source returns an empty batch carrying the error message. -/
def agente_procesar (nombre : String) (ronda : Nat)
    (llm : Except String (List Ref)) (referencias_previas : List Ref) :
    AgentResult :=
  match llm with
  | .error e =>
    { referencias := [], total := 0, agente := nombre, ronda := ronda,
      error := some e }
  | .ok referencias =>
    let referencias_nuevas :=
      if referencias_previas ≠ [] then
        filtrar_duplicados referencias referencias_previas
      else referencias
    { referencias := referencias_nuevas, total := referencias_nuevas.length,
      agente := nombre, ronda := ronda }

/-- Oracle bundle of the convergence engine: one LLM outcome per agent per
round (arguments: round number, `referencias_previas`), plus the semantic
deduplication LLM. -/
structure ConvOracles where
  llmA : Nat → List Ref → Except String (List Ref)
  llmB : Nat → List Ref → Except String (List Ref)
  llmC : Nat → List Ref → Except String (List Ref)
  iaDedup : List Ref → Except Unit (List Nat)

/-- The round-summary dict built at the end of
`SistemaConvergencia._ejecutar_ronda`. -/
structure RondaResult where
  ronda : Nat
  resultado_agente_a : AgentResult
  resultado_agente_b : AgentResult
  resultado_agente_c : AgentResult
  total_candidatas : Nat
  referencias_unicas : Nat
  referencias_nuevas : Nat
  total_acumuladas : Nat
  convergencia_alcanzada : Bool
deriving DecidableEq, Repr

/-- The accumulation loop of `_ejecutar_ronda`: attribute each unique
candidate to the first agent that produced it (A before B before C), and
append it to the growing total unless `_es_duplicado` holds against the
references accumulated so far. -/
def agregar_nuevas (ra rb : List Ref) (nombre_a nombre_b nombre_c : String)
    (numero_ronda : Nat) : List Ref → List Ref → List Ref
  | [], totales => totales
  | ref :: resto, totales =>
    let agente :=
      if ref ∈ ra then nombre_a
      else if ref ∈ rb then nombre_b
      else nombre_c
    let totales' :=
      if es_duplicado totales ref then totales
      else totales ++
        [{ ref with metadata := some ⟨agente, numero_ronda⟩ }]
    agregar_nuevas ra rb nombre_a nombre_b nombre_c numero_ronda resto totales'

/-- Embeds `SistemaConvergencia._ejecutar_ronda` (the parallel and sequential modes
collect exactly the same three results; the join point is modeled by reading
all three oracle outcomes). -/
def ejecutar_ronda (o : ConvOracles) (referencias_totales : List Ref)
    (numero_ronda : Nat) : List Ref × RondaResult :=
  let previas := referencias_totales
  let total_antes := referencias_totales.length
  let resultado_a :=
    agente_procesar "Agente1A-Conservador" numero_ronda (o.llmA numero_ronda previas) previas
  let resultado_b :=
    agente_procesar "Agente1B-Agresivo" numero_ronda (o.llmB numero_ronda previas) previas
  let resultado_c :=
    agente_procesar "Agente1C-Sabueso" numero_ronda (o.llmC numero_ronda previas) previas
  let referencias_ronda :=
    resultado_a.referencias ++ resultado_b.referencias ++ resultado_c.referencias
  let referencias_unicas := deduplicar_semanticamente o.iaDedup referencias_ronda
  let totales' := agregar_nuevas resultado_a.referencias resultado_b.referencias
    resultado_a.agente resultado_b.agente resultado_c.agente numero_ronda
    referencias_unicas referencias_totales
  let total_despues := totales'.length
  let referencias_realmente_nuevas := total_despues - total_antes
  let convergencia_alcanzada := referencias_realmente_nuevas == 0
  (totales',
   { ronda := numero_ronda
     resultado_agente_a := resultado_a
     resultado_agente_b := resultado_b
     resultado_agente_c := resultado_c
     total_candidatas := referencias_ronda.length
     referencias_unicas := referencias_unicas.length
     referencias_nuevas := referencias_realmente_nuevas
     total_acumuladas := total_despues
     convergencia_alcanzada := convergencia_alcanzada })

/-- Embeds `SistemaConvergencia._filtrar_por_confianza`: keep references whose
`confianza` (default 100 when absent) reaches the threshold. -/
def filtrar_por_confianza (umbral_confianza_minima : Nat)
    (referencias : List Ref) : List Ref :=
  referencias.filter (fun ref => umbral_confianza_minima ≤ ref.confianza.getD 100)

/-- The `for ronda in range(1, max_rondas + 1)` loop of
`SistemaConvergencia.ejecutar`, with the remaining iteration count as
structural fuel: run a round, record it, stop on convergence. -/
def ejecutar_bucle (o : ConvOracles) :
    Nat → Nat → List Ref → List RondaResult → List Ref × List RondaResult
  | 0, _, totales, historial => (totales, historial)
  | fuel + 1, ronda, totales, historial =>
    let paso := ejecutar_ronda o totales ronda
    if paso.2.convergencia_alcanzada then (paso.1, historial ++ [paso.2])
    else ejecutar_bucle o fuel (ronda + 1) paso.1 (historial ++ [paso.2])

/-- The result dict of `SistemaConvergencia.ejecutar` (timing and metrics
fields omitted). -/
structure ConvResult where
  referencias : List Ref
  total_referencias : Nat
  total_rondas : Nat
  convergencia_alcanzada : Bool
  historial : List RondaResult
deriving DecidableEq, Repr

/-- Embeds `SistemaConvergencia.ejecutar`.  Returns `none` exactly when
`historial_rondas` would be empty (with `max_rondas = 0` the source raises
`IndexError` on `historial_rondas[-1]`). -/
def ejecutar (o : ConvOracles) (max_rondas umbral_confianza_minima : Nat) :
    Option ConvResult :=
  let resultado := ejecutar_bucle o max_rondas 1 [] []
  let referencias_filtradas :=
    filtrar_por_confianza umbral_confianza_minima resultado.1
  match resultado.2.getLast? with
  | none => none
  | some ultima =>
    some { referencias := referencias_filtradas
           total_referencias := referencias_filtradas.length
           total_rondas := resultado.2.length
           convergencia_alcanzada := ultima.convergencia_alcanzada
           historial := resultado.2 }

/-! ## Decimal digits

Kernel-evaluable decimal representation used to embed Python string
formatting (`f"{año}"`, `f"{numero:04d}"`) and number parsing; the recursion
is driven by structural fuel so every definition reduces by `decide`. -/

/-- Decimal digits of `n`, most significant first, with fuel. -/
def natDigitsGo : Nat → Nat → List Nat
  | 0, n => [n % 10]
  | fuel + 1, n => if n < 10 then [n] else natDigitsGo fuel (n / 10) ++ [n % 10]

/-- Decimal digits of `n`, most significant first (`[1,2,3]` for `123`). -/
def natDigits (n : Nat) : List Nat := natDigitsGo n n

/-- Value of a digit list read most-significant-first. -/
def digitsVal (ds : List Nat) : Nat := ds.foldl (fun a d => a * 10 + d) 0

/-- A decimal digit as a character. -/
def digitChar (d : Nat) : Char :=
  match d with
  | 0 => '0' | 1 => '1' | 2 => '2' | 3 => '3' | 4 => '4'
  | 5 => '5' | 6 => '6' | 7 => '7' | 8 => '8' | _ => '9'

/-- Numeric value of a digit character. -/
def digitVal (c : Char) : Nat := c.toNat - 48

/-- Kernel-evaluable `int(s)` for the plain digit strings the fetcher feeds
it (the core `String.toNat?` iterates over byte positions and does not
reduce inside the kernel). -/
def toNatS (s : String) : Option Nat :=
  if s.data ≠ [] ∧ s.data.all Char.isDigit then
    some (digitsVal (s.data.map digitVal))
  else none

/-- Decimal representation of a natural number (Python `str(n)` / `f"{n}"`). -/
def natRepr (n : Nat) : String := ⟨(natDigits n).map digitChar⟩

/-- Python `f"{n:04d}"`: pad a decimal representation with leading zeros to a
minimum width of 4 (longer representations are kept whole). -/
def pad4 (s : String) : String :=
  ⟨List.replicate (4 - s.length) '0' ++ s.data⟩

/-! ## EUR-Lex CELEX synthesis (`modules/eurlex_fetcher.py`) -/

/-- Embeds `eurlex_fetcher.generar_celex`: `"3" + year + kind + number padded to 4
digits`, defaulting the kind to `"R"` when it is not one of R/L/D. -/
def generar_celex (tipo : String) (anno numero : Nat) : String :=
  let tipo_upper := toUpperS tipo
  let tipo_valido :=
    if tipo_upper = "R" ∨ tipo_upper = "L" ∨ tipo_upper = "D" then tipo_upper
    else "R"
  "3" ++ natRepr anno ++ tipo_valido ++ pad4 (natRepr numero)

/-- Parse a CELEX string according to the documented format
`3<YYYY><R|L|D><NNNN>`: sector digit `3`, a 4-digit year, one kind letter,
and at least one number digit. -/
def parseCelex (s : String) : Option (String × Nat × Nat) :=
  match s.data with
  | c3 :: y1 :: y2 :: y3 :: y4 :: t :: resto =>
    if c3 = '3' ∧ [y1, y2, y3, y4].all Char.isDigit ∧
        (t = 'R' ∨ t = 'L' ∨ t = 'D') ∧ resto ≠ [] ∧ resto.all Char.isDigit then
      some (⟨[t]⟩, digitsVal ([y1, y2, y3, y4].map digitVal),
            digitsVal (resto.map digitVal))
    else none
  | _ => none

/-- Year/number selection in `eurlex_fetcher.extraer_celex_de_texto`
(lines 113–117 and the analogous Directiva/Decisión branches): the first
captured number is taken as the year exactly when it is at least 1000. -/
def seleccionar_anno_numero (num1 num2 : Nat) : Nat × Nat :=
  if 1000 ≤ num1 then (num1, num2) else (num2, num1)

/-! ### A small scanner replacing `re.search` for the EU act patterns

The patterns `Reglamento/Directiva/Decisión (UE|CE)? (No)? (\d+)/(\d+)` are
matched ASCII-case-insensitively at every position of the text, leftmost
first, exactly as `re.search(..., re.IGNORECASE)` does. -/

/-- Case-insensitive literal match (ASCII case folding, as every pattern
letter is ASCII): consume `lit` from the head of `cs`. -/
def quitarLitCI : List Char → List Char → Option (List Char)
  | [], cs => some cs
  | _ :: _, [] => none
  | l :: ls, c :: cs =>
    if c.toLower = l.toLower then quitarLitCI ls cs else none

/-- Consume zero or more whitespace characters (`\s*`). -/
def quitarWs : List Char → List Char
  | c :: cs => if c.isWhitespace then quitarWs cs else c :: cs
  | [] => []

/-- Consume one or more whitespace characters (`\s+`). -/
def quitarWs1 : List Char → Option (List Char)
  | c :: cs => if c.isWhitespace then some (quitarWs cs) else none
  | [] => none

/-- Split a maximal run of decimal digits off the head (`\d+` would capture
it). -/
def tomarDigitos : List Char → List Char × List Char
  | [] => ([], [])
  | c :: cs =>
    if c.isDigit then
      let resto := tomarDigitos cs
      (c :: resto.1, resto.2)
    else ([], c :: cs)

/-- Match the tail `(\d+)/(\d+)` of the EU act patterns at the current
position, returning the two captured numbers. -/
def matchParNumeros (cs : List Char) : Option (Nat × Nat) :=
  let d1 := tomarDigitos cs
  if d1.1 = [] then none
  else
    match d1.2 with
    | '/' :: resto =>
      let d2 := tomarDigitos resto
      if d2.1 = [] then none
      else some (digitsVal (d1.1.map digitVal), digitsVal (d2.1.map digitVal))
    | _ => none

/-- Match one EU act pattern at the current position:
`<palabra>\s*(?:\(UE\)|\(CE\)|UE|CE)?\s*(?:No|N[oº]|n[oº])?\s*(\d+)/(\d+)`
with the ordered-alternation semantics of the Python regex. -/
def matchActoAt (palabra : String) (cs : List Char) : Option (Nat × Nat) :=
  match quitarLitCI palabra.data cs with
  | none => none
  | some r1 =>
    let r2 := quitarWs r1
    let r3 :=
      match quitarLitCI "(ue)".data r2 with
      | some r => r
      | none =>
        match quitarLitCI "(ce)".data r2 with
        | some r => r
        | none =>
          match quitarLitCI "ue".data r2 with
          | some r => r
          | none =>
            match quitarLitCI "ce".data r2 with
            | some r => r
            | none => r2
    let r4 := quitarWs r3
    let r5 :=
      match r4 with
      | a :: b :: resto =>
        if (a = 'n' ∨ a = 'N') ∧ (b = 'o' ∨ b = 'O' ∨ b = 'º') then resto
        else r4
      | _ => r4
    matchParNumeros (quitarWs r5)

/-- Embeds `re.search`: try the position matcher at every suffix, leftmost first. -/
def buscarEnTexto (m : List Char → Option (Nat × Nat)) :
    List Char → Option (Nat × Nat)
  | [] => m []
  | c :: cs =>
    match m (c :: cs) with
    | some r => some r
    | none => buscarEnTexto m cs

/-- Embeds `eurlex_fetcher.extraer_celex_de_texto`: try the Reglamento, Directiva
and Decisión patterns in that order; on a match, take the first number as the
year when it is ≥ 1000 and synthesize the CELEX. -/
def extraer_celex_de_texto (texto : String) : Option String :=
  match buscarEnTexto (matchActoAt "Reglamento") texto.data with
  | some (num1, num2) =>
    let an := seleccionar_anno_numero num1 num2
    some (generar_celex "R" an.1 an.2)
  | none =>
    match buscarEnTexto (matchActoAt "Directiva") texto.data with
    | some (num1, num2) =>
      let an := seleccionar_anno_numero num1 num2
      some (generar_celex "L" an.1 an.2)
    | none =>
      match buscarEnTexto (matchActoAt "Decisión") texto.data with
      | some (num1, num2) =>
        let an := seleccionar_anno_numero num1 num2
        some (generar_celex "D" an.1 an.2)
      | none => none

/-! ## BOE article fetcher (`modules/boe_article_fetcher.py`) -/

/-- Embeds the tail of `BOEArticleFetcher._numero_a_palabras_lopj` (the
centenas/decenas/unidades assembly, `117 ↦ "acientodiecisiete"`), reached for
numbers of 10 to 999; every list index taken here is in range, so the `getD`
defaults are never read. -/
def numero_a_palabras_lopj_cuerpo (numero : Nat) : String :=
  let unidades := ["", "uno", "dos", "tres", "cuatro", "cinco", "seis",
                   "siete", "ocho", "nueve"]
  let especiales := ["diez", "once", "doce", "trece", "catorce", "quince",
                     "dieciséis", "diecisiete", "dieciocho", "diecinueve"]
  let decenas := ["", "", "veint", "treinta", "cuarenta", "cincuenta",
                  "sesenta", "setenta", "ochenta", "noventa"]
  let centenas := ["", "ciento", "doscientos", "trescientos",
                   "cuatrocientos", "quinientos", "seiscientos",
                   "setecientos", "ochocientos", "novecientos"]
  let c := numero / 100
  let resultado0 :=
    if c > 0 then (if numero = 100 then "cien" else centenas.getD c "")
    else ""
  let resto := numero % 100
  let resultado :=
    if 10 ≤ resto ∧ resto < 20 then
      resultado0 ++ especiales.getD (resto - 10) ""
    else if 20 ≤ resto then
      let d := resto / 10
      let u := resto % 10
      if 20 ≤ resto ∧ resto ≤ 29 then
        if u = 0 then resultado0 ++ "veinte"
        else resultado0 ++ decenas.getD d "" ++ "i" ++ unidades.getD u ""
      else
        let r := resultado0 ++ decenas.getD d ""
        if u > 0 then r ++ "y" ++ unidades.getD u "" else r
    else
      if resto > 0 then resultado0 ++ unidades.getD resto "" else resultado0
  "a" ++ resultado

/-- Embeds `BOEArticleFetcher._numero_a_palabras_lopj`.  The special names
cover 0–9; for a number whose hundreds digit count exceeds the 10-element
`centenas` list (`numero ≥ 1000`) the Python raises `IndexError` — the
`none` branch here; otherwise the assembly above runs with every index in
range. -/
def numero_a_palabras_lopj (numero : Nat) : Option String :=
  if numero = 0 then some "acero"
  else if numero = 1 then some "aprimero"
  else if numero = 2 then some "asegundo"
  else if numero = 3 then some "atercero"
  else if numero = 4 then some "acuarto"
  else if numero = 5 then some "aquinto"
  else if numero = 6 then some "asexto"
  else if numero = 7 then some "aseptimo"
  else if numero = 8 then some "aoctavo"
  else if numero = 9 then some "anoveno"
  else if 10 ≤ numero / 100 then none
  else some (numero_a_palabras_lopj_cuerpo numero)

/-- Embeds `BOEArticleFetcher._normalizar_numero_articulo`: lower-case, strip the
`^(art\.?|artículo|art)\s*` prefix (with the ordered-alternation semantics of
the Python regex, whose first branch `art\.?` always wins when the input
starts with `art`), strip, then keep the leading `\d+(\.\d+)?` when present. -/
def normalizar_numero_articulo (numero : String) : String :=
  let bajado := toLowerS numero
  let sin_prefijo : List Char :=
    match quitarLitCI "art".data bajado.data with
    | some resto =>
      let resto2 := match resto with
        | '.' :: r => r
        | r => r
      quitarWs resto2
    | none => bajado.data
  let limpio := trimS (String.mk sin_prefijo)
  let d1 := tomarDigitos limpio.data
  if d1.1 = [] then limpio
  else
    match d1.2 with
    | '.' :: r =>
      let d2 := tomarDigitos r
      if d2.1 = [] then String.mk d1.1
      else String.mk (d1.1 ++ '.' :: d2.1)
    | _ => String.mk d1.1

/-- Python `list.insert(1, x)`. -/
def insertar_en_1 (x : String) : List String → List String
  | [] => [x]
  | p :: resto => p :: x :: resto

/-- Embeds `numero.split('.')[0]`. -/
def hastaPunto (s : String) : String := String.mk (s.data.takeWhile (· ≠ '.'))

/-- The block-id pattern list built inside
`BOEArticleFetcher._intentar_descarga_directa` (lines 129–145): the base list
`[a<n>, art<n>, a<n>bis, art<n>bis, id_bloque]`, with the Spanish-word LOPJ
pattern inserted at index 1 when the base number parses as an integer
(`int(num_base)`; `String.toNat?` there, both accept plain digit strings).
The surrounding `try` catches only `ValueError`/`TypeError` (the
non-integer case), so the `IndexError` of `_numero_a_palabras_lopj` on a
parsed number ≥ 1000 escapes: that is the `none` outcome, reached before
any pattern is tried. -/
def patrones_id (num_base : String) (id_bloque : String) :
    Option (List String) :=
  let base := ["a" ++ num_base, "art" ++ num_base,
               "a" ++ num_base ++ "bis", "art" ++ num_base ++ "bis",
               id_bloque]
  match toNatS num_base with
  | some num_int =>
    match numero_a_palabras_lopj num_int with
    | some palabra => some (insertar_en_1 palabra base)
    | none => none
  | none => some base

/-- An article record as returned by
`BOEArticleFetcher._extraer_articulo_bloque`. -/
structure Articulo where
  numero : String := ""
  titulo : String := ""
  texto : String := ""
  url : String := ""
deriving DecidableEq, Repr

/-- Embeds `BOEArticleFetcher._intentar_descarga_directa`.  The oracle `fetch`
models, for one block id, `_descargar_bloque_articulo` (HTTP) followed by
`_extraer_articulo_bloque` (XML parse); `none` covers a failed download, a
non-200 status and an unparseable block.  The loop takes the first pattern
for which both steps succeed.  `Except.error ()` is the uncaught
`IndexError` raised while building the pattern list for a parsed article
number ≥ 1000: the function aborts before trying any block id, and the
`except Exception` of the caller `obtener_articulo` turns it into `None`. -/
def intentar_descarga_directa (fetch : String → Option Articulo)
    (id_bloque numero_articulo : String) : Except Unit (Option Articulo) :=
  let num_norm := normalizar_numero_articulo numero_articulo
  let num_base := hastaPunto num_norm
  match patrones_id num_base id_bloque with
  | none => .error ()
  | some patrones => .ok (patrones.findSome? fetch)

/-! ## BOE downloader (`modules/boe_downloader.py`) -/

/-- The parsed `articulos` dict of a downloaded norm: article number ↦
`texto_completo`. -/
abbrev LeyArticulos := List (String × String)

/-- Network oracle for `BOEDownloader.descargar_ley`: the HTTP GET of
`act.php?id=<boe_id>` together with `_parsear_html`; `none` models a non-200
status, a network exception, or any other error swallowed by the function.
The on-disk cache only changes freshness and is folded into the oracle. -/
abbrev BOENet := String → Option LeyArticulos

/-- Embeds `BOEDownloader.descargar_ley`, restricted to the `articulos` component
actually consumed by the verification path. -/
def descargar_ley (net : BOENet) (boe_id : String) : Option LeyArticulos :=
  net boe_id

/-- Embeds `numero_articulo.strip().lstrip('0')`. -/
def normalizar_numero_boe (s : String) : String :=
  String.mk ((trimS s).data.dropWhile (· = '0'))

/-- Embeds `BOEDownloader.verificar_articulo_existe`: `False` both when the download
fails and when the normalized article number is not among the parsed
articles. -/
def verificar_articulo_existe (net : BOENet)
    (boe_id numero_articulo : String) : Bool :=
  match descargar_ley net boe_id with
  | none => false
  | some ley_data =>
    let numero_norm := normalizar_numero_boe numero_articulo
    (ley_data.map Prod.fst).contains numero_norm

/-- Embeds `BOEDownloader.obtener_texto_articulo`. -/
def obtener_texto_articulo (net : BOENet)
    (boe_id numero_articulo : String) : Option String :=
  match descargar_ley net boe_id with
  | none => none
  | some ley_data =>
    let numero_norm := normalizar_numero_boe numero_articulo
    ley_data.lookup numero_norm

/-! ## Regex-lite helpers shared by the searcher and the validator

Each helper mirrors one concrete Python pattern, ASCII-case-insensitively,
tracking the consumed characters so that `match.group(0)`/`group(1)` can be
reproduced with the original casing. -/

/-- Case-insensitive literal, returning `(consumed original text, rest)`. -/
def quitarLitCIcons : List Char → List Char → Option (List Char × List Char)
  | [], cs => some ([], cs)
  | _ :: _, [] => none
  | l :: ls, c :: cs =>
    if c.toLower = l.toLower then
      match quitarLitCIcons ls cs with
      | some (tomado, resto) => some (c :: tomado, resto)
      | none => none
    else none

/-- Embeds `\s+` with consumed characters. -/
def mWs1cons (cs : List Char) : Option (List Char × List Char) :=
  match cs with
  | c :: resto =>
    if c.isWhitespace then
      let r := resto.span Char.isWhitespace
      some (c :: r.1, r.2)
    else none
  | [] => none

/-- Exactly four decimal digits (`\d{4}`). -/
def tomarCuatroDigitos : List Char → Option (List Char × List Char)
  | a :: b :: c :: d :: resto =>
    if a.isDigit && b.isDigit && c.isDigit && d.isDigit then
      some ([a, b, c, d], resto)
    else none
  | _ => none

/-- Embeds `(\d+/\d{4})` with consumed characters. -/
def mNumSlash4 (cs : List Char) : Option (List Char × List Char) :=
  let d1 := cs.span Char.isDigit
  if d1.1 = [] then none
  else
    match d1.2 with
    | '/' :: r =>
      match tomarCuatroDigitos r with
      | some (ds, resto) => some (d1.1 ++ '/' :: ds, resto)
      | none => none
    | _ => none

/-- A sequence of case-insensitive literal words separated by `\s+`,
returning the consumed text. -/
def matchPalabrasCons : List String → List Char → Option (List Char × List Char)
  | [], cs => some ([], cs)
  | [w], cs => quitarLitCIcons w.data cs
  | w :: ws, cs =>
    match quitarLitCIcons w.data cs with
    | none => none
    | some (c1, r1) =>
      match mWs1cons r1 with
      | none => none
      | some (c2, r2) =>
        match matchPalabrasCons ws r2 with
        | none => none
        | some (c3, r3) => some (c1 ++ c2 ++ c3, r3)

/-- Embeds `<words>\s+(\d+/\d{4})` at one position, returning
`(group(1) = the words as written, group(2) = the number)`. -/
def matchTipoNumAt (palabras : List String) (cs : List Char) :
    Option (String × String) :=
  match matchPalabrasCons palabras cs with
  | none => none
  | some (g1, r1) =>
    match mWs1cons r1 with
    | none => none
    | some (_, r2) =>
      match mNumSlash4 r2 with
      | some (g2, _) => some (String.mk g1, String.mk g2)
      | none => none

/-- Embeds `re.search` for `matchTipoNumAt`: leftmost matching position. -/
def buscarTipoNum (palabras : List String) : List Char → Option (String × String)
  | [] => none
  | c :: cs =>
    match matchTipoNumAt palabras (c :: cs) with
    | some r => some r
    | none => buscarTipoNum palabras cs

/-- Embeds `<words>\s+(\d+)/(\d{4})` at one position, returning the two separate
number groups. -/
def matchTipoNum2At (palabras : List String) (cs : List Char) :
    Option (String × String) :=
  match matchPalabrasCons palabras cs with
  | none => none
  | some (_, r1) =>
    match mWs1cons r1 with
    | none => none
    | some (_, r2) =>
      let d1 := r2.span Char.isDigit
      if d1.1 = [] then none
      else
        match d1.2 with
        | '/' :: r3 =>
          match tomarCuatroDigitos r3 with
          | some (ds, _) => some (String.mk d1.1, String.mk ds)
          | none => none
        | _ => none

/-- Embeds `re.search` for `matchTipoNum2At`. -/
def buscarTipoNum2 (palabras : List String) : List Char → Option (String × String)
  | [] => none
  | c :: cs =>
    match matchTipoNum2At palabras (c :: cs) with
    | some r => some r
    | none => buscarTipoNum2 palabras cs

/-- First occurrence of four consecutive digits, the Python
`re.search(r'(\d{4})', ley)`. -/
def primerCuatroDigitos : List Char → Option String
  | [] => none
  | c :: cs =>
    match tomarCuatroDigitos (c :: cs) with
    | some (ds, _) => some (String.mk ds)
    | none => primerCuatroDigitos cs

/-- Case-sensitive list-of-chars `startsWith`. -/
def empiezaCon : List Char → List Char → Bool
  | [], _ => true
  | _ :: _, [] => false
  | a :: as_, c :: cs => a = c && empiezaCon as_ cs

/-- Python `aguja in pajar` on plain strings (substring containment). -/
def contieneSub (aguja : List Char) : List Char → Bool
  | [] => decide (aguja = [])
  | c :: cs => empiezaCon aguja (c :: cs) || contieneSub aguja cs

/-! ## Validator (`agents/validator_agent.py`) -/

/-- Embeds `ValidatorAgent._extraer_ley_de_texto`, pattern
`Ley\s+(?:Orgánica\s+)?(\d+/\d{4})` at one position, returning `group(0)`.
When the optional `Orgánica\s+` part has matched but the number fails, the
regex backtracks and retries without it; that retry always fails (the next
character is then `O`, not a digit), so it is not replayed here. -/
def matchLeyAt (cs : List Char) : Option (List Char) :=
  match quitarLitCIcons "Ley".data cs with
  | none => none
  | some (c1, r1) =>
    match mWs1cons r1 with
    | none => none
    | some (c2, r2) =>
      let opt :=
        match quitarLitCIcons "Orgánica".data r2 with
        | some (co, ro) =>
          match mWs1cons ro with
          | some (cw, rw) => some (co ++ cw, rw)
          | none => none
        | none => none
      match opt with
      | some (c3, r3) =>
        match mNumSlash4 r3 with
        | some (c4, _) => some (c1 ++ c2 ++ c3 ++ c4)
        | none => none
      | none =>
        match mNumSlash4 r2 with
        | some (c4, _) => some (c1 ++ c2 ++ c4)
        | none => none

/-- Pattern `Real\s+Decreto\s+(?:Ley\s+)?(\d+/\d{4})` at one position,
returning `group(0)` (same backtracking remark as `matchLeyAt`). -/
def matchRDAt (cs : List Char) : Option (List Char) :=
  match matchPalabrasCons ["Real", "Decreto"] cs with
  | none => none
  | some (c1, r1) =>
    match mWs1cons r1 with
    | none => none
    | some (c2, r2) =>
      let opt :=
        match quitarLitCIcons "Ley".data r2 with
        | some (co, ro) =>
          match mWs1cons ro with
          | some (cw, rw) => some (co ++ cw, rw)
          | none => none
        | none => none
      match opt with
      | some (c3, r3) =>
        match mNumSlash4 r3 with
        | some (c4, _) => some (c1 ++ c2 ++ c3 ++ c4)
        | none => none
      | none =>
        match mNumSlash4 r2 with
        | some (c4, _) => some (c1 ++ c2 ++ c4)
        | none => none

/-- Pattern `Constitución\s+Española` at one position. -/
def matchConstitucionAt (cs : List Char) : Option (List Char) :=
  (matchPalabrasCons ["Constitución", "Española"] cs).map Prod.fst

/-- Embeds `re.search` returning `group(0)` of the first match. -/
def buscarGrupo0 (m : List Char → Option (List Char)) :
    List Char → Option String
  | [] => none
  | c :: cs =>
    match m (c :: cs) with
    | some g => some (String.mk g)
    | none => buscarGrupo0 m cs

/-- Embeds `ValidatorAgent._extraer_ley_de_texto`: try the three patterns in order
over the whole text. -/
def extraer_ley_de_texto (texto : String) : Option String :=
  match buscarGrupo0 matchLeyAt texto.data with
  | some g => some g
  | none =>
    match buscarGrupo0 matchRDAt texto.data with
    | some g => some g
    | none => buscarGrupo0 matchConstitucionAt texto.data

/-- The dict returned by `ValidatorAgent._extraer_info_ley`. -/
structure LeyInfo where
  referencia : String
  anno : Option String
  tipo : String
  titulo_completo : Option String
deriving DecidableEq, Repr

/-- Embeds `ValidatorAgent._extraer_info_ley`. -/
def extraer_info_ley (referencia : Ref) : Option LeyInfo :=
  let ley1 := truthyS (pyOrS referencia.ley_normalizada referencia.ley)
  let ley2 :=
    match ley1 with
    | some l => some l
    | none => extraer_ley_de_texto (referencia.texto_completo.getD "")
  match ley2 with
  | none => none
  | some ley =>
    some { referencia := ley
           anno := primerCuatroDigitos ley.data
           tipo := referencia.tipo.getD "desconocido"
           titulo_completo := referencia.ley_titulo_completo }

/-- Tail of `ValidatorAgent._validar_formato_articulo` after the leading
digits: `(\.\d+)?(\.[a-z])?$`, with the backtracking of the Python regex. -/
def matchFormatoResto (cs : List Char) : Bool :=
  let conPunto :=
    match cs with
    | '.' :: r =>
      let d := r.span Char.isDigit
      d.1 ≠ [] &&
        (match d.2 with
         | [] => true
         | ['.', c] => 'a' ≤ c && c ≤ 'z'
         | _ => false)
    | _ => false
  let sinPunto :=
    match cs with
    | [] => true
    | ['.', c] => 'a' ≤ c && c ≤ 'z'
    | _ => false
  conPunto || sinPunto

/-- Embeds `ValidatorAgent._validar_formato_articulo`:
`^\d+(?:\.\d+)?(?:\.[a-z])?$`. -/
def validar_formato_articulo (articulo : String) : Bool :=
  let d := articulo.data.span Char.isDigit
  d.1 ≠ [] && matchFormatoResto d.2

/-! ## BOE searcher (`modules/boe_searcher.py`) -/

/-- Oracles of the searcher: the two genuinely remote operations plus the
clock read and the on-disk cache contents. -/
structure SearchOracles where
  /-- Embeds `_buscar_en_api_boe tipo numero año`: the HTTP search against the BOE
  API, including its XML parsing and type check; `none` covers every failure
  path of that function. -/
  api_buscar : String → String → Option String → Option String
  /-- Embeds `_verificar_boe_id`: the retried HTTP existence check. -/
  verificar_id : String → Bool
  /-- Embeds `datetime.now().year`, read by `_buscar_sin_año`. -/
  anno_actual : Nat
  /-- the persisted `boe_ids_cache.json` contents at call time. -/
  cache : List (String × String) := []

/-- The `mapeo_siglas` dict of `BOESearcher._buscar_en_mapeo_siglas`. -/
def mapeo_siglas_estrategia0 : List (String × String) :=
  [("constitución española", "BOE-A-1978-31229"),
   ("constitución", "BOE-A-1978-31229"),
   ("ce", "BOE-A-1978-31229"),
   ("código civil", "BOE-A-1889-4763"),
   ("cc", "BOE-A-1889-4763"),
   ("código de comercio", "BOE-A-1885-6627"),
   ("ccom", "BOE-A-1885-6627"),
   ("cco", "BOE-A-1885-6627"),
   ("lec", "BOE-A-2000-323"),
   ("ley de enjuiciamiento civil", "BOE-A-2000-323"),
   ("ley de enjuiciamiento civil de 1881", "BOE-A-1881-813"),
   ("ley 1/2000", "BOE-A-2000-323"),
   ("ljv", "BOE-A-2015-7391"),
   ("ley 15/2015", "BOE-A-2015-7391"),
   ("jurisdicción voluntaria", "BOE-A-2015-7391"),
   ("lopj", "BOE-A-1985-12666"),
   ("ley orgánica del poder judicial", "BOE-A-1985-12666"),
   ("ley orgánica 6/1985", "BOE-A-1985-12666"),
   ("lpac", "BOE-A-2015-10565"),
   ("lrjsp", "BOE-A-2015-10566"),
   ("ley 39/2015", "BOE-A-2015-10565"),
   ("ley 40/2015", "BOE-A-2015-10566"),
   ("ljca", "BOE-A-1998-16718"),
   ("ley 29/1998", "BOE-A-1998-16718"),
   ("ley orgánica 1/1996", "BOE-A-1996-1069")]

/-- Embeds `BOESearcher._buscar_en_mapeo_siglas`: a direct, network-free lookup. -/
def buscar_en_mapeo_siglas (referencia : String) : Option String :=
  mapeo_siglas_estrategia0.lookup (trimS (toLowerS referencia))

/-- The `mapeo_conocido` dict of `BOESearcher._consultar_api_boe`. -/
def mapeo_conocido : List ((String × String) × String) :=
  [(("Ley", "39/2015"), "BOE-A-2015-10565"),
   (("Ley", "40/2015"), "BOE-A-2015-10566"),
   (("Ley", "30/1992"), "BOE-A-1992-26318"),
   (("Ley", "1/2000"), "BOE-A-2000-323"),
   (("Ley", "29/1998"), "BOE-A-1998-16718"),
   (("Ley", "15/2015"), "BOE-A-2015-7391"),
   (("Ley", "6/1997"), "BOE-A-1997-8392"),
   (("Ley", "50/1997"), "BOE-A-1997-25336"),
   (("Ley", "47/2003"), "BOE-A-2003-21614"),
   (("Ley", "58/2003"), "BOE-A-2003-23186"),
   (("Ley", "7/2007"), "BOE-A-2007-7788"),
   (("Real Decreto Legislativo", "2/2015"), "BOE-A-2015-11430"),
   (("Ley", "31/1995"), "BOE-A-1995-24292"),
   (("Ley Orgánica", "6/1985"), "BOE-A-1985-12666"),
   (("Ley Orgánica", "2/1979"), "BOE-A-1979-23709"),
   (("Ley Orgánica", "1/1996"), "BOE-A-1996-1069"),
   (("Ley", "9/2017"), "BOE-A-2017-12902"),
   (("Ley", "7/1985"), "BOE-A-1985-5392"),
   (("Real Decreto", "203/2021"), "BOE-A-2021-5032"),
   (("Real Decreto", "24/7/1889"), "BOE-A-1889-4763")]

/-- The `mapeo_siglas_nombres` dict of `BOESearcher._consultar_api_boe`. -/
def mapeo_siglas_nombres : List (String × String) :=
  [("constitución española", "BOE-A-1978-31229"),
   ("constitución", "BOE-A-1978-31229"),
   ("ce", "BOE-A-1978-31229"),
   ("código civil", "BOE-A-1889-4763"),
   ("cc", "BOE-A-1889-4763"),
   ("código de comercio", "BOE-A-1885-6627"),
   ("ccom", "BOE-A-1885-6627"),
   ("cco", "BOE-A-1885-6627"),
   ("lec", "BOE-A-2000-323"),
   ("ley de enjuiciamiento civil", "BOE-A-2000-323"),
   ("ley de enjuiciamiento civil de 1881", "BOE-A-1881-813"),
   ("ley 1/2000", "BOE-A-2000-323"),
   ("ljv", "BOE-A-2015-7391"),
   ("ley 15/2015", "BOE-A-2015-7391"),
   ("jurisdicción voluntaria", "BOE-A-2015-7391"),
   ("lopj", "BOE-A-1985-12666"),
   ("ley orgánica del poder judicial", "BOE-A-1985-12666"),
   ("ley orgánica 6/1985", "BOE-A-1985-12666"),
   ("lpac", "BOE-A-2015-10565"),
   ("lrjsp", "BOE-A-2015-10566"),
   ("ljca", "BOE-A-1998-16718"),
   ("ley orgánica 1/1996", "BOE-A-1996-1069")]

/-- Letters for Python's Unicode-aware `str.title()`, restricted to ASCII
plus the Spanish accented letters occurring in the embedded data. -/
def esLetra (c : Char) : Bool :=
  c.isAlpha ||
    ['á', 'é', 'í', 'ó', 'ú', 'ñ', 'Á', 'É', 'Í', 'Ó', 'Ú', 'Ñ', 'ü', 'Ü'].contains c

/-- Worker of `tituloCase` carrying whether the previous char was a letter. -/
def tituloCaseGo : Bool → List Char → List Char
  | _, [] => []
  | prev, c :: cs =>
    let c' := if esLetra c then (if prev then c.toLower else c.toUpper) else c
    c' :: tituloCaseGo (esLetra c) cs

/-- Python `str.title()` (for the `tipo` values fed to `mapeo_conocido`). -/
def tituloCase (s : String) : String := String.mk (tituloCaseGo false s.data)

/-- Embeds `BOESearcher._consultar_api_boe`: static sigla map first (each hit gated
by the remote existence check), then the static `(tipo, numero)` map, then
the remote search.  The computed-but-unused `tipo_norm` of the source is
omitted. -/
def consultar_api_boe (o : SearchOracles) (tipo numero : String)
    (anno : Option String) : Option String :=
  let busquedas_siglas :=
    [trimS (toLowerS (tipo ++ " " ++ numero)),
     trimS (toLowerS (tipo ++ " " ++ numero ++ "/" ++ anno.getD "None")),
     trimS (toLowerS numero)]
  let desde_siglas := busquedas_siglas.findSome? fun b =>
    match mapeo_siglas_nombres.lookup b with
    | some boe_id => if o.verificar_id boe_id then some boe_id else none
    | none => none
  match desde_siglas with
  | some b => some b
  | none =>
    match mapeo_conocido.lookup (tituloCase tipo, numero) with
    | some boe_id =>
      if o.verificar_id boe_id then some boe_id
      else o.api_buscar tipo numero anno
    | none => o.api_buscar tipo numero anno

/-- Embeds `BOESearcher._extraer_tipo_numero`. -/
def extraer_tipo_numero (referencia : String) : Option (String × String) :=
  match buscarTipoNum ["Ley"] referencia.data with
  | some r => some r
  | none =>
    match buscarTipoNum ["Real", "Decreto"] referencia.data with
    | some r => some r
    | none =>
      match buscarTipoNum ["RD"] referencia.data with
      | some (_, numero) => some ("Real Decreto", numero)
      | none => none

/-- Embeds `BOESearcher._buscar_con_año`. -/
def buscar_con_anno (o : SearchOracles) (referencia : String)
    (anno : Option String) : Option String :=
  match truthyS anno with
  | none => none
  | some a =>
    match extraer_tipo_numero referencia with
    | none => none
    | some (tipo, numero) => consultar_api_boe o tipo numero (some a)

/-- Embeds `BOESearcher._buscar_sin_año`: try the thirty most recent years. -/
def buscar_sin_anno (o : SearchOracles) (referencia : String) : Option String :=
  match extraer_tipo_numero referencia with
  | none => none
  | some (tipo, numero) =>
    ((List.range 30).map (fun i => o.anno_actual - i)).findSome? fun a =>
      consultar_api_boe o tipo numero (some (natRepr a))

/-- Embeds `BOESearcher._buscar_por_patron`. -/
def buscar_por_patron (o : SearchOracles) (referencia : String) : Option String :=
  match buscarTipoNum2 ["Ley"] referencia.data with
  | some (numero, anno) => consultar_api_boe o "Ley" numero (some anno)
  | none =>
    match buscarTipoNum2 ["Real", "Decreto"] referencia.data with
    | some (numero, anno) => consultar_api_boe o "Real Decreto" numero (some anno)
    | none =>
      match buscarTipoNum2 ["RD"] referencia.data with
      | some (numero, anno) => consultar_api_boe o "Real Decreto" numero (some anno)
      | none => none

/-- Embeds `numero.split('/')` into the two components of an `N/YYYY` string. -/
def partirBarra (s : String) : String × String :=
  (String.mk (s.data.takeWhile (· ≠ '/')),
   String.mk ((s.data.dropWhile (· ≠ '/')).drop 1))

/-- Embeds `BOESearcher._buscar_por_titulo_completo`.  The year captured by the
first regex of the source is never used afterwards and is omitted. -/
def buscar_por_titulo_completo (o : SearchOracles)
    (titulo_completo : String) : Option String :=
  match buscarTipoNum ["Ley"] titulo_completo.data with
  | some (_, ley_numero) =>
    let p := partirBarra ley_numero
    consultar_api_boe o "Ley" p.1 (some p.2)
  | none =>
    match buscarTipoNum ["Real", "Decreto", "Legislativo"] titulo_completo.data with
    | some (_, rd_numero) =>
      let p := partirBarra rd_numero
      consultar_api_boe o "Real Decreto Legislativo" p.1 (some p.2)
    | none =>
      match buscarTipoNum ["Real", "Decreto"] titulo_completo.data with
      | some (_, rd_numero) =>
        let p := partirBarra rd_numero
        consultar_api_boe o "Real Decreto" p.1 (some p.2)
      | none =>
        match buscarTipoNum ["Ley", "Orgánica"] titulo_completo.data with
        | some (_, lo_numero) =>
          let p := partirBarra lo_numero
          consultar_api_boe o "Ley Orgánica" p.1 (some p.2)
        | none =>
          if contieneSub "constitución".data (toLowerS titulo_completo).data then
            some "BOE-A-1978-31229"
          else if contieneSub "código civil".data (toLowerS titulo_completo).data then
            some "BOE-A-1889-4763"
          else if contieneSub "código penal".data (toLowerS titulo_completo).data then
            some "BOE-A-1995-25444"
          else none

/-- Worker of `colapsarWs` tracking whether the previous output char came
from a whitespace run. -/
def colapsarWsGo : Bool → List Char → List Char
  | _, [] => []
  | prev, c :: cs =>
    if c.isWhitespace then
      if prev then colapsarWsGo true cs else ' ' :: colapsarWsGo true cs
    else c :: colapsarWsGo false cs

/-- Remove every occurrence of a case-insensitive token followed by `\s*`
(the two `re.sub` calls of `BOESearcher._normalizar_referencia`), with fuel. -/
def quitarTokenCI (tok : String) : Nat → List Char → List Char
  | 0, cs => cs
  | _ + 1, [] => []
  | fuel + 1, c :: cs =>
    match quitarLitCI tok.data (c :: cs) with
    | some resto => quitarTokenCI tok fuel (quitarWs resto)
    | none => c :: quitarTokenCI tok fuel cs

/-- Embeds `BOESearcher._normalizar_referencia`: strip, collapse whitespace runs,
remove `nº\s*` and `núm\.\s*`. -/
def normalizar_referencia_busqueda (referencia : String) : String :=
  let ref1 := colapsarWsGo false (trimS referencia).data
  let ref2 := quitarTokenCI "nº" ref1.length ref1
  let ref3 := quitarTokenCI "núm." ref2.length ref2
  String.mk ref3

/-- Embeds `BOESearcher.buscar_ley`: cache, then the five-strategy cascade.  The
cache write on success is a disk effect and is not modeled. -/
def buscar_ley (o : SearchOracles) (referencia : String) (anno : Option String)
    (titulo_completo : Option String) : Option String :=
  let ref_normalizada := normalizar_referencia_busqueda referencia
  let cache_key := ref_normalizada ++ "_" ++ anno.getD "None" ++ "_" ++
    (match truthyS titulo_completo with
     | some t => String.mk (t.data.take 30)
     | none => "")
  match o.cache.lookup cache_key with
  | some b => some b
  | none =>
    let b0 := buscar_en_mapeo_siglas referencia
    let b1 :=
      match b0 with
      | some b => some b
      | none =>
        match truthyS titulo_completo with
        | some t => buscar_por_titulo_completo o t
        | none => none
    let b2 :=
      match b1 with
      | some b => some b
      | none => buscar_con_anno o ref_normalizada anno
    let b3 :=
      match b2 with
      | some b => some b
      | none =>
        match truthyS anno with
        | some _ => buscar_sin_anno o ref_normalizada
        | none => none
    match b3 with
    | some b => some b
    | none => buscar_por_patron o referencia

/-! ## Validator main path (`agents/validator_agent.py`) -/

/-- The dict returned by `ValidatorAgent._verificar_articulo_en_boe`. -/
structure VerifBOE where
  existe : Option Bool
  texto_oficial : Option String
  verificado_boe : Bool
  error : Option String
deriving DecidableEq, Repr

/-- Embeds `ValidatorAgent._verificar_articulo_en_boe` (its `except` branch cannot
fire here because the embedded downloader never raises). -/
def verificar_articulo_en_boe (verificar_articulos : Bool) (net : BOENet)
    (boe_id articulo : String) : VerifBOE :=
  if ¬ verificar_articulos then
    { existe := none, texto_oficial := none, verificado_boe := false,
      error := some "Verificación de artículos deshabilitada" }
  else if verificar_articulo_existe net boe_id articulo then
    { existe := some true,
      texto_oficial := obtener_texto_articulo net boe_id articulo,
      verificado_boe := true, error := none }
  else
    { existe := some false, texto_oficial := none, verificado_boe := true,
      error := some ("Artículo " ++ articulo ++ " NO existe en " ++ boe_id) }

/-- Configuration and oracles of one `ValidatorAgent`. -/
structure ValidCfg where
  verificar_articulos : Bool := true
  buscar : SearchOracles
  net : BOENet

/-- Embeds `ValidatorAgent._validar_referencia` (the `_buscar_boe_id` wrapper's
`except` branch is subsumed: searcher failures already surface as `none`). -/
def validar_referencia (cfg : ValidCfg) (referencia : Ref) : Ref :=
  let validacion0 := referencia.metadata_validacion.getD {}
  match extraer_info_ley referencia with
  | none =>
    let val' := { validacion0 with
                  validada := some false
                  motivo := some "No se pudo extraer información de ley" }
    { referencia with metadata_validacion := some val', validada := some false }
  | some ley_info =>
    let boe_id := buscar_ley cfg.buscar ley_info.referencia ley_info.anno
      ley_info.titulo_completo
    let paso2 : Ref × MetaVal :=
      match boe_id with
      | some b =>
        ({ referencia with boe_id := some b, validada := some true },
         { validacion0 with
           validada := some true
           boe_id := some b
           boe_url := some ("https://www.boe.es/buscar/act.php?id=" ++ b) })
      | none =>
        ({ referencia with validada := some false },
         { validacion0 with
           validada := some false
           motivo := some "No se encontró BOE-ID" })
    let ref1 := paso2.1
    let val1 := paso2.2
    match truthyS ref1.articulo with
    | none => { ref1 with metadata_validacion := some val1 }
    | some articulo =>
      let val2 :=
        { val1 with
          articulo_formato_valido := some (validar_formato_articulo articulo) }
      match boe_id with
      | some b =>
        if cfg.verificar_articulos then
          let verificacion_boe :=
            verificar_articulo_en_boe cfg.verificar_articulos cfg.net b articulo
          let val3 :=
            { val2 with
              articulo_verificado_boe := some verificacion_boe.verificado_boe
              articulo_existe_boe := some verificacion_boe.existe }
          let paso4 : Ref × MetaVal :=
            match verificacion_boe.existe with
            | some true =>
              ({ ref1 with
                 texto_oficial_boe := some verificacion_boe.texto_oficial },
               { val3 with
                 articulo_texto_oficial := some verificacion_boe.texto_oficial })
            | some false =>
              ({ ref1 with validada := some false },
               { val3 with
                 validada := some false
                 motivo := some ("Artículo " ++ articulo ++
                   " NO existe en el BOE oficial") })
            | none => (ref1, val3)
          let val5 :=
            match truthyS verificacion_boe.error with
            | some e => { paso4.2 with error_verificacion := some e }
            | none => paso4.2
          { paso4.1 with metadata_validacion := some val5 }
        else { ref1 with metadata_validacion := some val2 }
      | none => { ref1 with metadata_validacion := some val2 }

/-- Embeds `ValidatorAgent.procesar`, restricted to its reference list (the counters
are derived data). -/
def validador_procesar (cfg : ValidCfg) (referencias : List Ref) : List Ref :=
  referencias.map (validar_referencia cfg)

/-! ## EU abbreviation data (`modules/legal_abbreviations.py`) -/

/-- Embeds `SIGLAS_EUROPEAS`. -/
def SIGLAS_EUROPEAS : List (String × String) :=
  [("RGPD", "Reglamento (UE) 2016/679"),
   ("GDPR", "Reglamento (UE) 2016/679"),
   ("Roma I", "Reglamento (CE) No 593/2008"),
   ("Roma II", "Reglamento (CE) No 864/2007"),
   ("Roma III", "Reglamento (UE) No 1259/2010"),
   ("Bruselas I", "Reglamento (CE) No 44/2001"),
   ("Bruselas I bis", "Reglamento (UE) No 1215/2012"),
   ("Bruselas II bis", "Reglamento (CE) No 2201/2003"),
   ("eIDAS", "Reglamento (UE) No 910/2014"),
   ("DSA", "Reglamento (UE) 2022/2065"),
   ("DMA", "Reglamento (UE) 2022/1925"),
   ("AI Act", "Reglamento (UE) 2024/1689"),
   ("IA Act", "Reglamento (UE) 2024/1689"),
   ("Directiva PIF", "Directiva (UE) 2017/1371"),
   ("Directiva PNR", "Directiva (UE) 2016/681"),
   ("PSD2", "Directiva (UE) 2015/2366"),
   ("Reglamento de Concentraciones", "Reglamento (CE) No 139/2004"),
   ("Fiscalía Europea", "Reglamento (UE) 2017/1939"),
   ("EPPO", "Reglamento (UE) 2017/1939")]

/-- Embeds `CELEX_CONOCIDOS`. -/
def CELEX_CONOCIDOS : List (String × String) :=
  [("RGPD", "32016R0679"),
   ("GDPR", "32016R0679"),
   ("Roma I", "32008R0593"),
   ("Roma II", "32007R0864"),
   ("Roma III", "32010R1259"),
   ("Bruselas I", "32001R0044"),
   ("Bruselas I bis", "32012R1215"),
   ("Bruselas II bis", "32003R2201"),
   ("eIDAS", "32014R0910"),
   ("DSA", "32022R2065"),
   ("DMA", "32022R1925"),
   ("AI Act", "32024R1689"),
   ("IA Act", "32024R1689"),
   ("Directiva PIF", "32017L1371"),
   ("Directiva PNR", "32016L0681"),
   ("PSD2", "32015L2366"),
   ("Reglamento de Concentraciones", "32004R0139"),
   ("Fiscalía Europea", "32017R1939"),
   ("EPPO", "32017R1939")]

/-- Embeds `es_sigla_europea` (exact, case-sensitive dict membership). -/
def es_sigla_europea (texto : String) : Bool :=
  (SIGLAS_EUROPEAS.lookup texto).isSome

/-- Embeds `expandir_sigla_europea`. -/
def expandir_sigla_europea (sigla : String) : String :=
  (SIGLAS_EUROPEAS.lookup sigla).getD sigla

/-- Embeds `obtener_celex_por_sigla`. -/
def obtener_celex_por_sigla (sigla : String) : Option String :=
  CELEX_CONOCIDOS.lookup sigla

/-- A word character for the `\b` boundaries of the sigla search (`\w`:
alphanumerics, underscore; the accented letters of the embedded data). -/
def esCaracterPalabra (c : Char) : Bool :=
  c.isAlphanum || c = '_' || esLetra c

/-- Embeds `re.search(r'\b<sigla>\b', texto, re.IGNORECASE)`: scan every position,
carrying whether the previous character was a word character (every sigla
starts and ends with a word character, so both boundaries reduce to
neighbour checks). -/
def buscarSiglaPalabra (sigla : List Char) : Bool → List Char → Bool
  | _, [] => false
  | prevWord, c :: cs =>
    (!prevWord &&
      (match quitarLitCIcons sigla (c :: cs) with
       | some (_, resto) =>
         match resto with
         | [] => true
         | r :: _ => !esCaracterPalabra r
       | none => false)) ||
    buscarSiglaPalabra sigla (esCaracterPalabra c) cs

/-- The `patrones_europeos` list of `es_legislacion_europea`. -/
def patrones_europeos : List String :=
  ["reglamento (ue)", "reglamento (ce)", "reglamento ue", "reglamento ce",
   "directiva (ue)", "directiva (ce)", "directiva ue", "directiva ce",
   "decisión (ue)", "decisión (ce)"]

/-- Embeds `es_legislacion_europea`: a lower-cased substring hit on one of the EU
patterns, or a word-bounded case-insensitive hit of a known EU sigla. -/
def es_legislacion_europea (texto : String) : Bool :=
  let texto_lower := toLowerS texto
  patrones_europeos.any (fun patron => contieneSub patron.data texto_lower.data) ||
  SIGLAS_EUROPEAS.any (fun par => buscarSiglaPalabra par.1.data false texto.data)

/-! ## Normalizer (`agents/normalizer_agent.py`) -/

/-- Oracles of one `NormalizerAgent`: the two LLM calls it can make. -/
structure NormOracles where
  /-- Embeds `generar_contenido` inside `_normalizar_formato_europeo_con_ia`
  (argument: the text to normalize); `.error` models the `except` branch. -/
  euLLM : String → Except Unit String
  /-- Embeds `generar_contenido` inside `_resolver_ambiguedad_con_ia`
  (arguments: the sigla and its candidate meanings). -/
  ambLLM : String → List String → Except Unit String

/-- Pattern `art(?:ículo|iculo)?\.?\s*(\d+)` at one position (IGNORECASE),
returning `group(1)`.  When the optional `ículo|iculo` part matches, the
remainder can never satisfy `\.?\s*\d+` from the pre-optional point either,
so the regex backtracking is not replayed. -/
def matchArtAt (cs : List Char) : Option (String × List Char) :=
  match quitarLitCIcons "art".data cs with
  | none => none
  | some (_, r1) =>
    let r2 :=
      match quitarLitCIcons "ículo".data r1 with
      | some (_, ro) => ro
      | none =>
        match quitarLitCIcons "iculo".data r1 with
        | some (_, ro) => ro
        | none => r1
    let r3 := match r2 with
      | '.' :: r => r
      | r => r
    let r4 := quitarWs r3
    let d := tomarDigitos r4
    if d.1 = [] then none else some (String.mk d.1, d.2)

/-- Embeds `re.search` for `matchArtAt`, keeping `group(1)`. -/
def buscarArtNum : List Char → Option String
  | [] => none
  | c :: cs =>
    match matchArtAt (c :: cs) with
    | some (g, _) => some g
    | none => buscarArtNum cs

/-- Pattern `art(?:ículo|iculo)?\.?\s*\d+\s+del?\s+` at one position,
returning the rest of the input after the match. -/
def matchArtDelAt (cs : List Char) : Option (List Char) :=
  match matchArtAt cs with
  | none => none
  | some (_, d2) =>
    match quitarWs1 d2 with
    | none => none
    | some r5 =>
      match quitarLitCI "de".data r5 with
      | none => none
      | some r6 =>
        let r7 := match r6 with
          | c :: resto => if c.toLower = 'l' then resto else r6
          | [] => r6
        quitarWs1 r7

/-- Embeds `re.sub` of the `matchArtDelAt` pattern with `''` (all occurrences),
with fuel. -/
def quitarArtDel : Nat → List Char → List Char
  | 0, cs => cs
  | _ + 1, [] => []
  | fuel + 1, c :: cs =>
    match matchArtDelAt (c :: cs) with
    | some resto => quitarArtDel fuel resto
    | none => c :: quitarArtDel fuel cs

/-- Embeds `NormalizerAgent._normalizar_formato_europeo_con_ia`: LLM call, strip,
and the keyword sanity check of the reply. -/
def normalizar_formato_europeo_con_ia (o : NormOracles) (texto : String) :
    Option String :=
  match o.euLLM texto with
  | .error _ => none
  | .ok respuesta =>
    let normalizado := trimS respuesta
    if ["reglamento", "directiva", "decisión"].any
        (fun palabra => contieneSub palabra.data (toLowerS normalizado).data) then
      some normalizado
    else none

/-- Embeds `NormalizerAgent._normalizar_referencia_europea`. -/
def normalizar_referencia_europea (o : NormOracles) (referencia : Ref) :
    Ref × Bool :=
  let texto_original := referencia.texto_completo.getD ""
  let articulo := buscarArtNum texto_original.data
  let texto_limpio := trimS texto_original
  let texto_sin_articulo :=
    String.mk (quitarArtDel texto_limpio.data.length texto_limpio.data)
  let caso3 : Ref × Bool :=
    match extraer_celex_de_texto texto_original with
    | some celex =>
      ({ referencia with
         celex := some celex
         texto_normalizado := some texto_original }, true)
    | none => (referencia, false)
  if es_sigla_europea (trimS texto_sin_articulo) then
    let sigla := trimS texto_sin_articulo
    let nombre_completo := expandir_sigla_europea sigla
    let celex := obtener_celex_por_sigla sigla
    let ref1 := { referencia with
                  nombre_completo := some nombre_completo
                  sigla_original := some sigla
                  expandida := true }
    let ref2 :=
      match celex with
      | some cx => { ref1 with celex := some cx }
      | none => ref1
    let ref3 :=
      match articulo with
      | some art =>
        { ref2 with
          articulo := some art
          texto_normalizado :=
            some ("Artículo " ++ art ++ " del " ++ nombre_completo) }
      | none => { ref2 with texto_normalizado := some nombre_completo }
    (ref3, true)
  else if ["reg.", "regl.", "dir.", "directiva", "reglamento"].any
      (fun palabra => contieneSub palabra.data (toLowerS texto_original).data) then
    match normalizar_formato_europeo_con_ia o texto_original with
    | some normalizado =>
      let ref1 := { referencia with
                    texto_normalizado := some normalizado
                    normalizado_ia := true }
      let ref2 :=
        match extraer_celex_de_texto normalizado with
        | some cx => { ref1 with celex := some cx }
        | none => ref1
      (ref2, true)
    | none => caso3
  else caso3

/-- Python `str.isupper()` restricted to the ASCII/Spanish letters of the
embedded data: some cased character, none of them lower case. -/
def pyIsUpper (s : String) : Bool :=
  let cased := s.data.filter esLetra
  cased ≠ [] && cased.all fun c =>
    !(c.isLower || ['á', 'é', 'í', 'ó', 'ú', 'ñ', 'ü'].contains c)

/-- Embeds `NormalizerAgent._es_sigla`. -/
def es_sigla (referencia : Ref) : Bool :=
  let tipo := toLowerS (referencia.tipo.getD "")
  let texto := referencia.texto_completo.getD ""
  tipo = "sigla" || (texto.length < 10 && pyIsUpper texto)

/-- Embeds `\b([1-9]\d?)\b` at one position (the index extraction of
`_resolver_ambiguedad_con_ia`); the caller guarantees the left boundary. -/
def matchNum1a99At : List Char → Option Nat
  | [] => none
  | a :: resto =>
    if '1' ≤ a ∧ a ≤ '9' then
      match resto with
      | [] => some (digitVal a)
      | b :: resto2 =>
        if b.isDigit then
          match resto2 with
          | [] => some (digitVal a * 10 + digitVal b)
          | c :: _ =>
            if esCaracterPalabra c then none
            else some (digitVal a * 10 + digitVal b)
        else if esCaracterPalabra b then none
        else some (digitVal a)
    else none

/-- Embeds `re.search(r'\b([1-9]\d?)\b', respuesta)`. -/
def buscarNum1a99 : Bool → List Char → Option Nat
  | _, [] => none
  | prevWord, c :: cs =>
    match (if prevWord then none else matchNum1a99At (c :: cs)) with
    | some n => some n
    | none => buscarNum1a99 (esCaracterPalabra c) cs

/-- Embeds `NormalizerAgent._resolver_ambiguedad_con_ia`: ask the LLM for the index
of the right meaning and fall back to the first meaning. -/
def resolver_ambiguedad_con_ia (o : NormOracles) (sigla : String)
    (significados : List String) : Option String :=
  let porIA : Option String :=
    match o.ambLLM sigla significados with
    | .error _ => none
    | .ok respuesta =>
      match buscarNum1a99 false respuesta.data with
      | some n =>
        if n - 1 < significados.length then significados[n - 1]? else none
      | none => none
  match porIA with
  | some s => some s
  | none => significados.head?

/-- Embeds `texto.replace('.', '')`. -/
def quitarPuntos (s : String) : String := String.mk (s.data.filter (· ≠ '.'))

/-- Embeds `NormalizerAgent._expandir_sigla`. -/
def expandir_sigla_norm (o : NormOracles)
    (siglas_dict : List (String × List String)) (referencia : Ref) :
    Ref × Bool :=
  let texto := quitarPuntos (toUpperS (trimS (referencia.texto_completo.getD "")))
  match siglas_dict.lookup texto with
  | none => (referencia, false)
  | some significados =>
    if significados.length = 1 then
      let significado := significados.getD 0 ""
      let ref1 := { referencia with
                    significado_completo := some significado
                    sigla_original := some texto
                    expandida := true }
      let ref2 :=
        match buscarTipoNum ["Ley"] significado.data with
        | some (_, num) => { ref1 with ley := some num }
        | none => ref1
      (ref2, true)
    else
      match resolver_ambiguedad_con_ia o texto significados with
      | some significado =>
        ({ referencia with
           significado_completo := some significado
           sigla_original := some texto
           expandida := true
           ambigua_resuelta := true }, true)
      | none => (referencia, false)

/-- Pattern `Real\s+Decreto\s+(?:Ley\s+)?(\d+/\d{4})` anchored at the start,
returning `group(1)`. -/
def matchRDNumAt (cs : List Char) : Option String :=
  match matchPalabrasCons ["Real", "Decreto"] cs with
  | none => none
  | some (_, r1) =>
    match mWs1cons r1 with
    | none => none
    | some (_, r2) =>
      let r3 :=
        match quitarLitCIcons "Ley".data r2 with
        | some (_, ro) =>
          match mWs1cons ro with
          | some (_, rw) => rw
          | none => r2
        | none => r2
      match mNumSlash4 r3 with
      | some (g, _) => some (String.mk g)
      | none => none

/-- Embeds `NormalizerAgent._normalizar_formato_ley` (all three `re.match` patterns
are anchored at the start of `ley`). -/
def normalizar_formato_ley (referencia : Ref) : Ref × Bool :=
  let ley := referencia.ley.getD ""
  if ley = "" then (referencia, false)
  else
    match matchTipoNumAt ["Ley", "Orgánica"] ley.data with
    | some (_, num) =>
      ({ referencia with
         ley_normalizada := some ("Ley Orgánica " ++ num)
         tipo_ley := some "organica" }, true)
    | none =>
      match matchTipoNumAt ["Ley"] ley.data with
      | some (_, num) =>
        ({ referencia with
           ley_normalizada := some ("Ley " ++ num)
           tipo_ley := some "ordinaria" }, true)
      | none =>
        match matchRDNumAt ley.data with
        | some num =>
          ({ referencia with
             ley_normalizada := some ("Real Decreto " ++ num)
             tipo_ley := some "real_decreto" }, true)
        | none => (referencia, false)

/-- Embeds `NormalizerAgent._enriquecer_metadata`. -/
def enriquecer_metadata (referencia : Ref) : Ref :=
  let metadata0 := referencia.metadata_normalizacion.getD {}
  let tipo := referencia.tipo.getD ""
  let categoria :=
    if tipo = "ley" ∨ tipo = "real_decreto" then "normativa"
    else if tipo = "articulo" ∨ tipo = "apartado" then "disposicion"
    else "otra"
  { referencia with
    metadata_normalizacion := some
      { metadata0 with
        tiene_boe_id := referencia.boe_id.isSome
        tiene_articulo := (truthyS referencia.articulo).isSome
        categoria := categoria } }

/-- Embeds `NormalizerAgent._normalizar_referencia`. -/
def normalizar_referencia (o : NormOracles)
    (siglas_dict : List (String × List String)) (referencia : Ref) :
    Ref × Bool :=
  let texto_completo := referencia.texto_completo.getD ""
  let ley_nombre := referencia.ley_nombre.getD ""
  let despues_eu : Ref × Bool :=
    if es_legislacion_europea texto_completo ∨ es_legislacion_europea ley_nombre
    then normalizar_referencia_europea o referencia
    else (referencia, false)
  if despues_eu.2 then
    ({ despues_eu.1 with normalizada := true, europea := true }, true)
  else
    let r0 := despues_eu.1
    let paso1 := if es_sigla r0 then expandir_sigla_norm o siglas_dict r0
                 else (r0, false)
    let paso2 := normalizar_formato_ley paso1.1
    let r3 := enriquecer_metadata paso2.1
    let hubo_cambios := paso1.2 || paso2.2
    (if hubo_cambios then { r3 with normalizada := true } else r3, hubo_cambios)

/-- Embeds `NormalizerAgent.procesar`, restricted to the reference list. -/
def normalizador_procesar (o : NormOracles)
    (siglas_dict : List (String × List String)) (referencias : List Ref) :
    List Ref :=
  referencias.map (fun ref => (normalizar_referencia o siglas_dict ref).1)

/-! ## Pipeline orchestration (`pipeline_optimizado.py`) -/

/-- Embeds `PipelineOptimizado.__init__` default for `umbral_confianza` (also the
default of the `umbral_confianza` parameter of `procesar_tema`). -/
def PipelineOptimizado.default_umbral : Nat := 70

/-- Embeds `PipelineOptimizado.__init__` default for `max_rondas_convergencia`. -/
def PipelineOptimizado.default_max_rondas : Nat := 3

/-- Embeds `PipelineOptimizado.__init__` default for `max_workers`. -/
def PipelineOptimizado.default_max_workers : Nat := 4

/-- Python `refs[i:i+k] for i in range(0, len(refs), k)` (`k ≥ 1` by
construction at every call site), with the list length as fuel. -/
def trozosGo {α : Type} (k : Nat) : Nat → List α → List (List α)
  | _, [] => []
  | 0, l => [l]
  | fuel + 1, a :: l => ((a :: l).take k) :: trozosGo k fuel ((a :: l).drop k)

/-- Batch split with size `k`. -/
def trozos {α : Type} (k : Nat) (l : List α) : List (List α) :=
  trozosGo k l.length l

/-- Embeds `ContextResolverAgent.procesar`, restricted to the reference list.  The
deterministic part — the split by `confianza < 100` and the 100%-only early
return — is concrete; the per-batch LLM resolution together with the second
pass (lines 121–193 of the source, all driven by LLM replies) is the oracle
`ctx`, applied to the incomplete references; the result order
`refs_completas + improved incompletas` mirrors line 196. -/
def context_resolver_procesar (ctx : List Ref → String → List Ref)
    (referencias : List Ref) (texto_original : String) : List Ref :=
  if referencias = [] then []
  else
    let refs_incompletas := referencias.filter (fun r => r.confianza.getD 100 < 100)
    let refs_completas := referencias.filter (fun r => ¬ (r.confianza.getD 100 < 100))
    if refs_incompletas = [] then referencias
    else refs_completas ++ ctx refs_incompletas texto_original

/-- Embeds `TitleResolverAgent.procesar`, restricted to the reference list: batches
of 15; per batch, the LLM call plus `_parsear_respuesta` is the oracle `tit`
(`.error` is the `except` branch, which keeps the originals; a JSON-parse
failure inside `_parsear_respuesta` also returns the originals and is an
`.ok` outcome). -/
def title_resolver_procesar (tit : List Ref → Except Unit (List Ref))
    (referencias : List Ref) : List Ref :=
  if referencias = [] then []
  else
    ((trozos 15 referencias).map fun batch =>
      match tit batch with
      | .ok batch_resuelto => batch_resuelto
      | .error _ => batch).flatten

/-- Embeds `PipelineOptimizado._normalizar_paralelo`.  `norm` is the per-reference
normalization (`_normalizar_batch` applies `NormalizerAgent.procesar`, which
maps `_normalizar_referencia` over its batch).  `orden_terminacion` is the
order in which `as_completed` yields the batch futures — a permutation of
the batch indices; results are extended in that completion order. -/
def normalizar_paralelo (norm : Ref → Ref) (max_workers : Nat)
    (orden_terminacion : List Nat) (referencias : List Ref) : List Ref :=
  if referencias.length < 5 then referencias.map norm
  else
    let batch_size := max 1 (referencias.length / max_workers)
    let batches := trozos batch_size referencias
    (orden_terminacion.map (fun i => (batches.getD i []).map norm)).flatten

/-- Embeds `PipelineOptimizado._validar_paralelo`.  One future per reference;
`orden_terminacion` is the completion order of the futures; each result is
written back into `resultados` at its submission index, so the assembled
list is restored to input order. -/
def validar_paralelo (validar : Ref → Ref) (orden_terminacion : List Nat)
    (referencias : List Ref) : List Ref :=
  if referencias.length < 5 then referencias.map validar
  else
    let resultados := orden_terminacion.foldl
      (fun acc i => acc.set i (some (validar (referencias.getD i {}))))
      (List.replicate referencias.length (none : Option Ref))
    resultados.filterMap id

/-- All oracles of one pipeline run. -/
structure PipelineOracles where
  conv : ConvOracles
  ctx : List Ref → String → List Ref
  tit : List Ref → Except Unit (List Ref)
  norm : NormOracles
  siglas_dict : List (String × List String)
  valid : ValidCfg
  orden_normalizacion : List Nat
  orden_validacion : List Nat

/-- Embeds `PipelineOptimizado.procesar_tema`, restricted to the `referencias` list
of the final report.  `umbral_init` is the `umbral_confianza` the pipeline
constructor hands to `SistemaConvergencia`; `umbral_confianza` is the
`procesar_tema` parameter used by the final filter (both default 70).

With `use_context_agent = False` the source builds `resultado_contexto`
without the key `'referencias_resueltas'` (lines 302–309) and then indexes
that key (line 319), so the run dies with a `KeyError`; that is `none` here.
The comparison, audit and export phases only read `referencias_validadas`. -/
def procesar_tema_model (po : PipelineOracles) (texto : String)
    (max_rondas_convergencia umbral_init max_workers : Nat)
    (use_context_agent : Bool) (umbral_confianza : Nat) : Option (List Ref) :=
  match ejecutar po.conv max_rondas_convergencia umbral_init with
  | none => none
  | some resultado_convergencia =>
    if ¬ use_context_agent then none
    else
      let refs_contexto := context_resolver_procesar po.ctx
        resultado_convergencia.referencias texto
      let refs_titulos := title_resolver_procesar po.tit refs_contexto
      let norm := fun ref => (normalizar_referencia po.norm po.siglas_dict ref).1
      let referencias_normalizadas := normalizar_paralelo norm max_workers
        po.orden_normalizacion refs_titulos
      let referencias_validadas := validar_paralelo
        (validar_referencia po.valid) po.orden_validacion
        referencias_normalizadas
      some (referencias_validadas.filter
        (fun ref => umbral_confianza ≤ ref.confianza.getD 0))

/-! ## Generic supporting lemmas -/

theorem string_data_append (a b : String) : (a ++ b).data = a.data ++ b.data := rfl

theorem natDigitsGo_irrel (n : Nat) : ∀ fuel, n ≤ fuel → natDigitsGo fuel n = natDigitsGo n n := by
  induction n using Nat.strong_induction_on with
  | _ n ih =>
    intro fuel h
    match fuel, n with
    | 0, n =>
      have hn : n = 0 := Nat.le_zero.mp h
      subst hn; rfl
    | fuel + 1, 0 => simp [natDigitsGo]
    | fuel + 1, n + 1 =>
      by_cases h10 : n + 1 < 10
      · simp [natDigitsGo, h10]
      · have hd : (n + 1) / 10 < n + 1 := Nat.div_lt_self (Nat.succ_pos n) (by omega)
        have e1 : natDigitsGo (fuel + 1) (n + 1) =
            natDigitsGo fuel ((n + 1) / 10) ++ [(n + 1) % 10] := by
          simp [natDigitsGo, h10]
        have e2 : natDigitsGo (n + 1) (n + 1) =
            natDigitsGo n ((n + 1) / 10) ++ [(n + 1) % 10] := by
          simp [natDigitsGo, h10]
        rw [e1, e2, ih ((n + 1) / 10) hd fuel (by omega),
          ih ((n + 1) / 10) hd n (by omega)]

theorem natDigits_lt10 {n : Nat} (h : n < 10) : natDigits n = [n] := by
  match n with
  | 0 => rfl
  | n + 1 => simp [natDigits, natDigitsGo, h]

theorem natDigits_step {n : Nat} (h : 10 ≤ n) :
    natDigits n = natDigits (n / 10) ++ [n % 10] := by
  obtain ⟨m, rfl⟩ : ∃ m, n = m + 1 := ⟨n - 1, by omega⟩
  have hd : (m + 1) / 10 < m + 1 := Nat.div_lt_self (Nat.succ_pos m) (by omega)
  show natDigitsGo (m + 1) (m + 1) = _
  simp only [natDigitsGo, if_neg (by omega : ¬ m + 1 < 10)]
  rw [natDigitsGo_irrel ((m + 1) / 10) m (by omega)]
  rfl

theorem digitsVal_append_digit (l : List Nat) (d : Nat) :
    digitsVal (l ++ [d]) = digitsVal l * 10 + d := by
  unfold digitsVal
  rw [List.foldl_append]
  rfl

theorem digitsVal_natDigits (n : Nat) : digitsVal (natDigits n) = n := by
  induction n using Nat.strong_induction_on with
  | _ n ih =>
    by_cases h : n < 10
    · rw [natDigits_lt10 h]; simp [digitsVal]
    · rw [natDigits_step (by omega), digitsVal_append_digit,
        ih (n / 10) (Nat.div_lt_self (by omega) (by omega))]
      omega

theorem natDigits_mem_lt {n d : Nat} (hd : d ∈ natDigits n) : d < 10 := by
  induction n using Nat.strong_induction_on with
  | _ n ih =>
    by_cases h : n < 10
    · rw [natDigits_lt10 h] at hd
      simp at hd; omega
    · rw [natDigits_step (by omega)] at hd
      rcases List.mem_append.mp hd with h1 | h2
      · exact ih (n / 10) (Nat.div_lt_self (by omega) (by omega)) h1
      · simp at h2; omega

theorem natDigits_ne_nil (n : Nat) : natDigits n ≠ [] := by
  by_cases h : n < 10
  · rw [natDigits_lt10 h]; simp
  · rw [natDigits_step (by omega)]; simp

theorem natDigits_len4 {n : Nat} (h1 : 1000 ≤ n) (h2 : n ≤ 9999) :
    (natDigits n).length = 4 := by
  rw [natDigits_step (by omega),
    natDigits_step (show 10 ≤ n / 10 by omega),
    natDigits_step (show 10 ≤ n / 10 / 10 by omega),
    natDigits_lt10 (show n / 10 / 10 / 10 < 10 by omega)]
  simp

theorem digitVal_digitChar {d : Nat} (h : d < 10) : digitVal (digitChar d) = d := by
  interval_cases d <;> rfl

theorem isDigit_digitChar {d : Nat} (h : d < 10) : (digitChar d).isDigit = true := by
  interval_cases d <;> rfl

theorem map_digitVal_digitChar {l : List Nat} (h : ∀ d ∈ l, d < 10) :
    (l.map digitChar).map digitVal = l := by
  induction l with
  | nil => rfl
  | cons a t ih =>
    simp only [List.map_cons, List.cons.injEq]
    exact ⟨digitVal_digitChar (h a (List.mem_cons_self a t)),
      ih (fun d hd => h d (List.mem_cons_of_mem a hd))⟩

theorem digitsVal_replicate_zero (k : Nat) (l : List Nat) :
    digitsVal (List.replicate k 0 ++ l) = digitsVal l := by
  induction k with
  | zero => rfl
  | succ k ih =>
    rw [List.replicate_succ, List.cons_append]
    show digitsVal (List.replicate k 0 ++ l) = digitsVal l
    exact ih

theorem list_four_of_length {l : List Char} (h : l.length = 4) :
    ∃ a b c d, l = [a, b, c, d] := by
  match l, h with
  | [a, b, c, d], _ => exact ⟨a, b, c, d, rfl⟩

theorem parseCelex_of_data (s : String) (a b c d t : Char) (resto : List Char)
    (h : s.data = '3' :: a :: b :: c :: d :: t :: resto)
    (hd : [a, b, c, d].all Char.isDigit = true)
    (ht : t = 'R' ∨ t = 'L' ∨ t = 'D')
    (hr : resto ≠ []) (hrd : resto.all Char.isDigit = true) :
    parseCelex s = some (⟨[t]⟩, digitsVal ([a, b, c, d].map digitVal),
      digitsVal (resto.map digitVal)) := by
  unfold parseCelex
  rw [h]
  exact if_pos ⟨rfl, hd, ht, hr, hrd⟩

/-! ## C6: CELEX synthesis and round-trip -/

theorem generar_celex_valido (tipo : String) (anno numero : Nat)
    (htipo : tipo = "R" ∨ tipo = "L" ∨ tipo = "D") :
    generar_celex tipo anno numero =
      "3" ++ natRepr anno ++ tipo ++ pad4 (natRepr numero) := by
  rcases htipo with rfl | rfl | rfl <;> rfl

/-- Shared core of the C6 round-trip: parse of the synthesized CELEX. -/
theorem parse_generar_celex (tipo : String) (anno numero : Nat)
    (htipo : tipo = "R" ∨ tipo = "L" ∨ tipo = "D")
    (h1 : 1000 ≤ anno) (h2 : anno ≤ 9999) :
    parseCelex (generar_celex tipo anno numero) = some (tipo, anno, numero) := by
  have hys : ((natDigits anno).map digitChar).length = 4 := by
    rw [List.length_map]; exact natDigits_len4 h1 h2
  obtain ⟨a, b, c, d, habcd⟩ := list_four_of_length hys
  have htc : ∃ t : Char, tipo = ⟨[t]⟩ ∧ (t = 'R' ∨ t = 'L' ∨ t = 'D') := by
    rcases htipo with rfl | rfl | rfl
    · exact ⟨'R', rfl, Or.inl rfl⟩
    · exact ⟨'L', rfl, Or.inr (Or.inl rfl)⟩
    · exact ⟨'D', rfl, Or.inr (Or.inr rfl)⟩
  obtain ⟨t, htipo_eq, ht⟩ := htc
  have h1 : (natRepr anno).data = [a, b, c, d] := habcd
  have hdata : (generar_celex tipo anno numero).data =
      '3' :: a :: b :: c :: d :: t :: (List.replicate (4 - (natRepr numero).length) '0' ++
        (natDigits numero).map digitChar) := by
    rw [generar_celex_valido tipo anno numero htipo, htipo_eq]
    rw [string_data_append, string_data_append, string_data_append, h1]
    rfl
  have hdigs : ∀ x ∈ natDigits anno, x < 10 := fun x hx => natDigits_mem_lt hx
  have habcd_dig : [a, b, c, d].all Char.isDigit = true := by
    rw [← habcd]
    simp only [List.all_eq_true, List.mem_map]
    rintro c' ⟨x, hx, rfl⟩
    exact isDigit_digitChar (natDigits_mem_lt hx)
  have hresto_ne : (List.replicate (4 - (natRepr numero).length) '0' ++
      (natDigits numero).map digitChar) ≠ [] := by
    intro hcon
    rcases List.append_eq_nil.mp hcon with ⟨-, h2'⟩
    exact natDigits_ne_nil numero (List.map_eq_nil_iff.mp h2')
  have hresto_dig : (List.replicate (4 - (natRepr numero).length) '0' ++
      (natDigits numero).map digitChar).all Char.isDigit = true := by
    simp only [List.all_append, Bool.and_eq_true, List.all_eq_true]
    constructor
    · intro x hx
      rw [List.eq_of_mem_replicate hx]
      rfl
    · simp only [List.mem_map]
      rintro c' ⟨x, hx, rfl⟩
      exact isDigit_digitChar (natDigits_mem_lt hx)
  rw [parseCelex_of_data _ a b c d t _ hdata habcd_dig ht hresto_ne hresto_dig]
  have hanno : digitsVal ([a, b, c, d].map digitVal) = anno := by
    rw [← habcd, map_digitVal_digitChar hdigs, digitsVal_natDigits]
  have hnum : digitsVal ((List.replicate (4 - (natRepr numero).length) '0' ++
      (natDigits numero).map digitChar).map digitVal) = numero := by
    rw [List.map_append, List.map_replicate,
      map_digitVal_digitChar (fun x hx => natDigits_mem_lt hx)]
    rw [show digitVal '0' = 0 from rfl, digitsVal_replicate_zero,
      digitsVal_natDigits]
  rw [hanno, hnum, htipo_eq]

/-- Claim C6: for every kind in {R, L, D}, every 4-digit year and every act
number, the synthesized CELEX is `"3" ++ year ++ kind ++ pad4 number`, and
parsing that string back per this format recovers the original triple. -/
theorem c6_celex_ida_y_vuelta (tipo : String) (anno numero : Nat)
    (htipo : tipo = "R" ∨ tipo = "L" ∨ tipo = "D")
    (hanno1 : 1000 ≤ anno) (hanno2 : anno ≤ 9999) :
    generar_celex tipo anno numero =
      "3" ++ natRepr anno ++ tipo ++ pad4 (natRepr numero) ∧
    parseCelex (generar_celex tipo anno numero) = some (tipo, anno, numero) :=
  ⟨generar_celex_valido tipo anno numero htipo,
   parse_generar_celex tipo anno numero htipo hanno1 hanno2⟩

/-- Witness for C6 at (R, 2016, 679), the GDPR act: CELEX 32016R0679. -/
theorem c6_celex_ida_y_vuelta_witness :
    (("R" : String) = "R" ∨ ("R" : String) = "L" ∨ ("R" : String) = "D") ∧
    1000 ≤ 2016 ∧ 2016 ≤ 9999 ∧
    (generar_celex "R" 2016 679 =
       "3" ++ natRepr 2016 ++ "R" ++ pad4 (natRepr 679) ∧
     parseCelex (generar_celex "R" 2016 679) = some ("R", 2016, 679)) :=
  ⟨Or.inl rfl, by decide, by decide,
   c6_celex_ida_y_vuelta "R" 2016 679 (Or.inl rfl) (by decide) (by decide)⟩

/-- Claim C7 is refuted by the code: `seleccionar_anno_numero` takes the FIRST
number of the pair as the year whenever it is at least 1000 (`num1 >= 1000` in
`generar_celex_desde_referencia`'s helper), so for
"Reglamento (UE) 12345/2008" — where the only 4-digit side is 2008 — the code
produces CELEX "312345R2008", using 12345 as the year; the claimed behaviour
holds only when the non-year side is below 1000, as in 2016/679 and 593/2008. -/
theorem c7_lado_de_cuatro_digitos :
    seleccionar_anno_numero 12345 2008 = (12345, 2008) ∧
    extraer_celex_de_texto "Reglamento (UE) 12345/2008" = some "312345R2008" ∧
    extraer_celex_de_texto "Reglamento (UE) 2016/679" = some "32016R0679" ∧
    extraer_celex_de_texto "Reglamento (CE) No 593/2008" = some "32008R0593" := by
  decide

/-! ## C2: the convergence loop and its round bound -/

theorem ejecutar_bucle_succ (o : ConvOracles) (n ronda : Nat) (tot : List Ref)
    (hist : List RondaResult) :
    ejecutar_bucle o (n + 1) ronda tot hist =
      if (ejecutar_ronda o tot ronda).2.convergencia_alcanzada
      then ((ejecutar_ronda o tot ronda).1,
            hist ++ [(ejecutar_ronda o tot ronda).2])
      else ejecutar_bucle o n (ronda + 1) (ejecutar_ronda o tot ronda).1
        (hist ++ [(ejecutar_ronda o tot ronda).2]) := rfl

theorem ejecutar_ronda_conv_eq (o : ConvOracles) (tot : List Ref) (r : Nat) :
    (ejecutar_ronda o tot r).2.convergencia_alcanzada =
      ((ejecutar_ronda o tot r).2.referencias_nuevas == 0) := rfl

theorem ejecutar_bucle_len (o : ConvOracles) :
    ∀ (fuel ronda : Nat) (tot : List Ref) (hist : List RondaResult),
      (ejecutar_bucle o fuel ronda tot hist).2.length ≤ hist.length + fuel := by
  intro fuel
  induction fuel with
  | zero => intro _ _ hist; exact Nat.le_add_right hist.length 0
  | succ n ih =>
    intro ronda tot hist
    rw [ejecutar_bucle_succ]
    by_cases hc : (ejecutar_ronda o tot ronda).2.convergencia_alcanzada
    · rw [if_pos hc]
      simp only [List.length_append, List.length_cons, List.length_nil]
      omega
    · rw [if_neg hc]
      have := ih (ronda + 1) (ejecutar_ronda o tot ronda).1
        (hist ++ [(ejecutar_ronda o tot ronda).2])
      simp only [List.length_append, List.length_cons, List.length_nil] at this
      omega

theorem ejecutar_bucle_early (o : ConvOracles) :
    ∀ (fuel ronda : Nat) (tot : List Ref) (hist : List RondaResult),
      (ejecutar_bucle o fuel ronda tot hist).2.length < hist.length + fuel →
      ∃ u, (ejecutar_bucle o fuel ronda tot hist).2.getLast? = some u ∧
        u.referencias_nuevas = 0 := by
  intro fuel
  induction fuel with
  | zero =>
    intro _ _ hist h
    exact absurd h (by simp [ejecutar_bucle])
  | succ n ih =>
    intro ronda tot hist h
    rw [ejecutar_bucle_succ] at h ⊢
    by_cases hc : (ejecutar_ronda o tot ronda).2.convergencia_alcanzada
    · rw [if_pos hc] at h ⊢
      refine ⟨(ejecutar_ronda o tot ronda).2, List.getLast?_concat _, ?_⟩
      rw [ejecutar_ronda_conv_eq] at hc
      exact beq_iff_eq.mp hc
    · rw [if_neg hc] at h ⊢
      apply ih
      simp only [List.length_append, List.length_cons, List.length_nil]
      omega

/-- Claim C2: `ejecutar` runs at most `max_rondas` rounds, and when it stops
with fewer rounds the last executed round added zero new references. -/
theorem c2_convergencia_rondas (o : ConvOracles) (max_rondas umbral : Nat)
    (res : ConvResult) (h : ejecutar o max_rondas umbral = some res) :
    res.total_rondas ≤ max_rondas ∧
    (res.total_rondas < max_rondas →
      ∃ u, res.historial.getLast? = some u ∧ u.referencias_nuevas = 0) := by
  simp only [ejecutar] at h
  cases hg : (ejecutar_bucle o max_rondas 1 [] []).2.getLast? with
  | none => rw [hg] at h; exact absurd h (by simp)
  | some ultima =>
    rw [hg] at h
    injection h with h'
    subst h'
    constructor
    · have := ejecutar_bucle_len o max_rondas 1 [] []
      simpa using this
    · intro hlt
      apply ejecutar_bucle_early o max_rondas 1 [] []
      simpa using hlt

def oc2 : ConvOracles where
  llmA := fun r _ =>
    if r = 1 then
      .ok [{ texto_completo := some "Ley 39/2015", ley := some "Ley 39/2015",
             confianza := some 90 }]
    else .ok []
  llmB := fun _ _ => .ok []
  llmC := fun _ _ => .ok []
  iaDedup := fun _ => .error ()

def resC2 : ConvResult := (ejecutar oc2 3 60).getD ⟨[], 0, 0, false, []⟩

/-- Witness for C2: with an oracle that yields one reference in round 1 and
nothing after, the run stops after round 2 of 3, and that round reports zero
new references. -/
theorem c2_convergencia_rondas_witness :
    ejecutar oc2 3 60 = some resC2 ∧
    resC2.total_rondas ≤ 3 ∧
    (resC2.total_rondas < 3 →
      ∃ u, resC2.historial.getLast? = some u ∧ u.referencias_nuevas = 0) :=
  ⟨by decide,
   (c2_convergencia_rondas oc2 3 60 resC2 (by decide)).1,
   (c2_convergencia_rondas oc2 3 60 resC2 (by decide)).2⟩

/-! ## C4: agent failures inside a round -/

theorem agente_procesar_error (n : String) (r : Nat) (e : String)
    (p : List Ref) :
    agente_procesar n r (.error e) p =
      { referencias := [], total := 0, agente := n, ronda := r,
        error := some e } := rfl

theorem agente_procesar_ok_nil (n : String) (r : Nat) (p : List Ref) :
    agente_procesar n r (.ok []) p =
      { referencias := [], total := 0, agente := n, ronda := r } := by
  unfold agente_procesar filtrar_duplicados
  simp [filtrar_duplicados_go]

theorem ejecutar_ronda_nuevas_eq (o : ConvOracles) (tot : List Ref)
    (r : Nat) :
    (ejecutar_ronda o tot r).2.referencias_nuevas =
      (ejecutar_ronda o tot r).1.length - tot.length := rfl

theorem ejecutar_ronda_all_error (o : ConvOracles) (tot : List Ref)
    (ronda : Nat) (ea eb ec : String)
    (hA : o.llmA ronda tot = .error ea) (hB : o.llmB ronda tot = .error eb)
    (hC : o.llmC ronda tot = .error ec) :
    (ejecutar_ronda o tot ronda).1 = tot ∧
    (ejecutar_ronda o tot ronda).2.referencias_nuevas = 0 ∧
    (ejecutar_ronda o tot ronda).2.convergencia_alcanzada = true := by
  have h1 : (ejecutar_ronda o tot ronda).1 = tot := by
    simp only [ejecutar_ronda, hA, hB, hC, agente_procesar_error]
    rfl
  have h2 : (ejecutar_ronda o tot ronda).2.referencias_nuevas = 0 := by
    rw [ejecutar_ronda_nuevas_eq, h1, Nat.sub_self]
  refine ⟨h1, h2, ?_⟩
  rw [ejecutar_ronda_conv_eq, h2]
  rfl

theorem ejecutar_todo_error (o : ConvOracles)
    (hA : ∀ r p, ∃ ea, o.llmA r p = Except.error ea)
    (hB : ∀ r p, ∃ eb, o.llmB r p = Except.error eb)
    (hC : ∀ r p, ∃ ec, o.llmC r p = Except.error ec)
    (max umbral : Nat) (hmax : 1 ≤ max) :
    ∃ res, ejecutar o max umbral = some res ∧ res.total_rondas = 1 ∧
      res.convergencia_alcanzada = true ∧ res.referencias = [] := by
  obtain ⟨m, rfl⟩ : ∃ m, max = m + 1 := ⟨max - 1, by omega⟩
  obtain ⟨ea, hA1⟩ := hA 1 []
  obtain ⟨eb, hB1⟩ := hB 1 []
  obtain ⟨ec, hC1⟩ := hC 1 []
  have hr := ejecutar_ronda_all_error o [] 1 ea eb ec hA1 hB1 hC1
  have hb : ejecutar_bucle o (m + 1) 1 [] [] =
      ((ejecutar_ronda o [] 1).1, [(ejecutar_ronda o [] 1).2]) := by
    rw [ejecutar_bucle_succ, if_pos hr.2.2]
    rfl
  refine ⟨{ referencias := [], total_referencias := 0, total_rondas := 1,
            convergencia_alcanzada := true,
            historial := [(ejecutar_ronda o [] 1).2] }, ?_, rfl, rfl, rfl⟩
  simp only [ejecutar, hb, hr.1]
  simp only [List.getLast?_singleton]
  rw [hr.2.2]
  rfl

/-- Claim C4: a failing agent contributes an empty batch carrying its error,
the round completes and merges the surviving agents' outputs (replacing the
failing agent by an empty success changes neither the accumulated list nor
the new-reference count), and with all three agents failing every round the
round adds nothing, declares convergence, and the run still returns a
result. -/
theorem c4_fallo_agentes (o : ConvOracles) (tot : List Ref) (ronda : Nat)
    (e : String) (hA : o.llmA ronda tot = .error e) :
    ((ejecutar_ronda o tot ronda).2.resultado_agente_a =
      { referencias := [], total := 0, agente := "Agente1A-Conservador",
        ronda := ronda, error := some e }) ∧
    ((ejecutar_ronda o tot ronda).1 =
      (ejecutar_ronda { o with llmA := fun _ _ => .ok [] } tot ronda).1) ∧
    ((ejecutar_ronda o tot ronda).2.referencias_nuevas =
      (ejecutar_ronda { o with llmA := fun _ _ => .ok [] }
        tot ronda).2.referencias_nuevas) ∧
    (∀ eb ec, o.llmB ronda tot = .error eb → o.llmC ronda tot = .error ec →
      (ejecutar_ronda o tot ronda).1 = tot ∧
      (ejecutar_ronda o tot ronda).2.referencias_nuevas = 0 ∧
      (ejecutar_ronda o tot ronda).2.convergencia_alcanzada = true) ∧
    (∀ max umbral, 1 ≤ max →
      (∀ r p, ∃ ea, o.llmA r p = Except.error ea) →
      (∀ r p, ∃ eb, o.llmB r p = Except.error eb) →
      (∀ r p, ∃ ec, o.llmC r p = Except.error ec) →
      ∃ res, ejecutar o max umbral = some res ∧ res.total_rondas = 1 ∧
        res.convergencia_alcanzada = true ∧ res.referencias = []) := by
  have hpar : (ejecutar_ronda o tot ronda).1 =
      (ejecutar_ronda { o with llmA := fun _ _ => .ok [] } tot ronda).1 := by
    simp only [ejecutar_ronda, hA, agente_procesar_error,
      agente_procesar_ok_nil]
  refine ⟨?_, hpar, ?_, ?_, ?_⟩
  · show agente_procesar "Agente1A-Conservador" ronda (o.llmA ronda tot) tot =
      _
    rw [hA, agente_procesar_error]
  · rw [ejecutar_ronda_nuevas_eq, ejecutar_ronda_nuevas_eq, hpar]
  · intro eb ec hB hC
    exact ejecutar_ronda_all_error o tot ronda e eb ec hA hB hC
  · intro max umbral hmax h1 h2 h3
    exact ejecutar_todo_error o h1 h2 h3 max umbral hmax

def oc4 : ConvOracles where
  llmA := fun _ _ => .error "fallo A"
  llmB := fun _ _ => .error "fallo B"
  llmC := fun _ _ => .error "fallo C"
  iaDedup := fun _ => .error ()

/-- Witness for C4: with three always-failing agents, starting from an empty
accumulated list in round 1. -/
theorem c4_fallo_agentes_witness :
    ((ejecutar_ronda oc4 [] 1).2.resultado_agente_a =
      { referencias := [], total := 0, agente := "Agente1A-Conservador",
        ronda := 1, error := some "fallo A" }) ∧
    ((ejecutar_ronda oc4 [] 1).1 =
      (ejecutar_ronda { oc4 with llmA := fun _ _ => .ok [] } [] 1).1) ∧
    ((ejecutar_ronda oc4 [] 1).2.referencias_nuevas =
      (ejecutar_ronda { oc4 with llmA := fun _ _ => .ok [] }
        [] 1).2.referencias_nuevas) ∧
    (∀ eb ec, oc4.llmB 1 [] = .error eb → oc4.llmC 1 [] = .error ec →
      (ejecutar_ronda oc4 [] 1).1 = [] ∧
      (ejecutar_ronda oc4 [] 1).2.referencias_nuevas = 0 ∧
      (ejecutar_ronda oc4 [] 1).2.convergencia_alcanzada = true) ∧
    (∀ max umbral, 1 ≤ max →
      (∀ r p, ∃ ea, oc4.llmA r p = Except.error ea) →
      (∀ r p, ∃ eb, oc4.llmB r p = Except.error eb) →
      (∀ r p, ∃ ec, oc4.llmC r p = Except.error ec) →
      ∃ res, ejecutar oc4 max umbral = some res ∧ res.total_rondas = 1 ∧
        res.convergencia_alcanzada = true ∧ res.referencias = []) :=
  c4_fallo_agentes oc4 [] 1 "fallo A" rfl

/-! ## C8: the two parallel fan-out stages -/

theorem trozosGo_flatten {α : Type} (k : Nat) (hk : 1 ≤ k) :
    ∀ (fuel : Nat) (l : List α), l.length ≤ fuel →
      (trozosGo k fuel l).flatten = l := by
  intro fuel
  induction fuel with
  | zero =>
    intro l h
    have hnil : l = [] := List.eq_nil_of_length_eq_zero (Nat.le_zero.mp h)
    subst hnil
    rfl
  | succ n ih =>
    intro l h
    match l with
    | [] => rfl
    | a :: t =>
      have hlen : ((a :: t).drop k).length ≤ n := by
        rw [List.length_drop]
        simp only [List.length_cons] at h ⊢
        omega
      show (a :: t).take k ++ (trozosGo k n ((a :: t).drop k)).flatten = a :: t
      rw [ih _ hlen, List.take_append_drop]

theorem trozos_flatten {α : Type} (k : Nat) (hk : 1 ≤ k) (l : List α) :
    (trozos k l).flatten = l :=
  trozosGo_flatten k hk l.length l (Nat.le_refl _)

theorem map_getD_range {α : Type} (L : List (List α)) :
    (List.range L.length).map (fun i => L.getD i []) = L := by
  apply List.ext_getElem?
  intro j
  rw [List.getElem?_map]
  by_cases hj : j < L.length
  · rw [List.getElem?_range hj]
    simp [List.getD_eq_getElem?_getD, List.getElem?_eq_getElem hj]
  · have hj' : L.length ≤ j := le_of_not_lt hj
    rw [List.getElem?_eq_none (by simpa using hj'),
        List.getElem?_eq_none hj']
    rfl

theorem normalizar_paralelo_perm (f : Ref → Ref) (w : Nat)
    (orden : List Nat) (refs : List Ref)
    (h : orden.Perm
      (List.range (trozos (max 1 (refs.length / w)) refs).length)) :
    (normalizar_paralelo f w orden refs).Perm (refs.map f) := by
  by_cases h5 : refs.length < 5
  · have hdef : normalizar_paralelo f w orden refs = refs.map f := by
      unfold normalizar_paralelo
      rw [if_pos h5]
    rw [hdef]
  · have hdef : normalizar_paralelo f w orden refs =
        (orden.map (fun i =>
          ((trozos (max 1 (refs.length / w)) refs).getD i []).map f)).flatten := by
      unfold normalizar_paralelo
      rw [if_neg h5]
    rw [hdef]
    have hcomp : orden.map (fun i =>
        ((trozos (max 1 (refs.length / w)) refs).getD i []).map f) =
        (orden.map (fun i =>
          (trozos (max 1 (refs.length / w)) refs).getD i [])).map
          (List.map f) := by
      rw [List.map_map]
      rfl
    rw [hcomp]
    have h1 : (orden.map (fun i =>
        (trozos (max 1 (refs.length / w)) refs).getD i [])).Perm
        ((List.range (trozos (max 1 (refs.length / w)) refs).length).map
          (fun i => (trozos (max 1 (refs.length / w)) refs).getD i [])) :=
      h.map _
    rw [map_getD_range] at h1
    have h2 := (h1.map (List.map f)).flatten
    have h4 : ((trozos (max 1 (refs.length / w)) refs).map
        (List.map f)).flatten =
        ((trozos (max 1 (refs.length / w)) refs).flatten).map f :=
      (List.map_flatten ..).symm
    rw [h4, trozos_flatten _ (le_max_left 1 _)] at h2
    exact h2

theorem getElem?_set_lt {α : Type} (l : List α) (i : Nat) (a : α)
    (hi : i < l.length) : (l.set i a)[i]? = some a := by
  simp [List.getElem?_set, hi]

theorem getElem?_set_ne {α : Type} (l : List α) (i j : Nat) (a : α)
    (hij : i ≠ j) : (l.set i a)[j]? = l[j]? := by
  simp [List.getElem?_set, hij]

theorem foldl_set_getElem? (v : Nat → Option Ref) :
    ∀ (l : List Nat) (init : List (Option Ref)),
      (∀ i ∈ l, i < init.length) → ∀ (j : Nat),
      (l.foldl (fun acc i => acc.set i (v i)) init)[j]? =
        if j ∈ l then some (v j) else init[j]? := by
  intro l
  induction l with
  | nil => intro init _ j; simp
  | cons i t ih =>
    intro init hl j
    rw [List.foldl_cons]
    have hlen : (init.set i (v i)).length = init.length := by simp
    rw [ih (init.set i (v i))
      (fun x hx => by rw [hlen]; exact hl x (List.mem_cons_of_mem i hx)) j]
    by_cases hjt : j ∈ t
    · rw [if_pos hjt, if_pos (List.mem_cons_of_mem i hjt)]
    · rw [if_neg hjt]
      by_cases hji : j = i
      · subst hji
        rw [if_pos (List.mem_cons_self j t),
            getElem?_set_lt init j (v j) (hl j (List.mem_cons_self j t))]
      · rw [if_neg (by simp [List.mem_cons, hji, hjt]),
            getElem?_set_ne init i j (v i) (fun hc => hji hc.symm)]

theorem validar_paralelo_orden (g : Ref → Ref) (orden : List Nat)
    (refs : List Ref) (h : orden.Perm (List.range refs.length)) :
    validar_paralelo g orden refs = refs.map g := by
  by_cases h5 : refs.length < 5
  · unfold validar_paralelo
    rw [if_pos h5]
  · have hdef : validar_paralelo g orden refs =
        (orden.foldl
          (fun acc i => acc.set i (some (g (refs.getD i {}))))
          (List.replicate refs.length (none : Option Ref))).filterMap id := by
      unfold validar_paralelo
      rw [if_neg h5]
    rw [hdef]
    have hmem : ∀ i, i ∈ orden ↔ i < refs.length := by
      intro i
      rw [h.mem_iff, List.mem_range]
    have hres : orden.foldl
        (fun acc i => acc.set i (some (g (refs.getD i {}))))
        (List.replicate refs.length (none : Option Ref)) =
        (refs.map g).map some := by
      apply List.ext_getElem?
      intro j
      rw [foldl_set_getElem? (fun i => some (g (refs.getD i {}))) orden
        (List.replicate refs.length none)
        (fun i hi => by
          rw [List.length_replicate]
          exact (hmem i).mp hi) j]
      by_cases hj : j < refs.length
      · rw [if_pos ((hmem j).mpr hj)]
        rw [List.getElem?_map, List.getElem?_map,
          List.getElem?_eq_getElem hj]
        rw [List.getD_eq_getElem?_getD, List.getElem?_eq_getElem hj]
        rfl
      · rw [if_neg (fun hc => hj ((hmem j).mp hc))]
        rw [List.getElem?_eq_none
            (show (List.replicate refs.length (none : Option Ref)).length ≤ j
              by simpa using le_of_not_lt hj)]
        rw [List.getElem?_map, List.getElem?_map,
          List.getElem?_eq_none (le_of_not_lt hj)]
        rfl
    rw [hres, List.filterMap_map]
    simp

/-- Claim C8, corrected: the validation fan-out writes each result back at
its submission index and so equals the sequential map whatever the
completion order, but the normalization fan-out extends its output in batch
completion order — it agrees with the sequential map only as a multiset. -/
theorem c8_fan_out (f g : Ref → Ref) (w : Nat) (ordenN ordenV : List Nat)
    (refs : List Ref)
    (hV : ordenV.Perm (List.range refs.length))
    (hN : ordenN.Perm
      (List.range (trozos (max 1 (refs.length / w)) refs).length)) :
    validar_paralelo g ordenV refs = refs.map g ∧
    (normalizar_paralelo f w ordenN refs).Perm (refs.map f) :=
  ⟨validar_paralelo_orden g ordenV refs hV,
   normalizar_paralelo_perm f w ordenN refs hN⟩

def refsC8 : List Ref :=
  [{ texto := some "r0" }, { texto := some "r1" }, { texto := some "r2" },
   { texto := some "r3" }, { texto := some "r4" }, { texto := some "r5" }]

/-- Witness for C8: six references, four workers (six singleton batches),
futures completing in reverse order. -/
theorem c8_fan_out_witness :
    ([5, 4, 3, 2, 1, 0] : List Nat).Perm (List.range refsC8.length) ∧
    ([5, 4, 3, 2, 1, 0] : List Nat).Perm
      (List.range (trozos (max 1 (refsC8.length / 4)) refsC8).length) ∧
    (validar_paralelo (fun r => r) [5, 4, 3, 2, 1, 0] refsC8 =
       refsC8.map (fun r => r) ∧
     (normalizar_paralelo (fun r => r) 4 [5, 4, 3, 2, 1, 0] refsC8).Perm
       (refsC8.map (fun r => r))) :=
  ⟨by decide, by decide,
   c8_fan_out (fun r => r) (fun r => r) 4 [5, 4, 3, 2, 1, 0]
     [5, 4, 3, 2, 1, 0] refsC8 (by decide) (by decide)⟩

/-- Counterexample to C8 as stated: with the same reversed completion order
the normalization stage returns the references reversed — completion order,
not restored input order — while the validation stage does restore input
order. -/
theorem c8_orden_no_restaurado_cx :
    normalizar_paralelo (fun r => r) 4 [5, 4, 3, 2, 1, 0] refsC8 =
      refsC8.reverse ∧
    refsC8.reverse ≠ refsC8 ∧
    validar_paralelo (fun r => r) [5, 4, 3, 2, 1, 0] refsC8 = refsC8 := by
  decide

/-! ## C3: the deduplication invariant of the accumulated list -/

/-- No reference of the list is, in the `_es_duplicado` sense (equal
non-empty lower-cased stripped `texto_completo`, or equal non-empty
lower-cased stripped `ley`), a duplicate of an earlier one. -/
def SinDuplicadosClave (l : List Ref) : Prop :=
  l.Pairwise (fun viejo nuevo => es_duplicado [viejo] nuevo = false)

theorem es_duplicado_false_iff (l : List Ref) (r : Ref) :
    es_duplicado l r = false ↔ ∀ v ∈ l, es_duplicado [v] r = false := by
  induction l with
  | nil => simp [es_duplicado]
  | cons v t ih =>
    constructor
    · intro h x hx
      rcases List.mem_cons.mp hx with rfl | hxt
      · simp only [es_duplicado, List.any_cons, List.any_nil,
          Bool.or_eq_false_iff] at h ⊢
        exact ⟨h.1, trivial⟩
      · apply ih.mp _ x hxt
        simp only [es_duplicado, List.any_cons, Bool.or_eq_false_iff] at h
        exact h.2
    · intro h
      simp only [es_duplicado, List.any_cons, Bool.or_eq_false_iff]
      constructor
      · have := h v (List.mem_cons_self v t)
        simp only [es_duplicado, List.any_cons, List.any_nil,
          Bool.or_eq_false_iff] at this
        exact this.1
      · exact ih.mpr fun x hx => h x (List.mem_cons_of_mem v hx)

theorem es_duplicado_metadata (v r : Ref) (m : Option Metadata) :
    es_duplicado [v] { r with metadata := m } = es_duplicado [v] r := rfl

/-- The metadata-stamped copy of a candidate that `agregar_nuevas` appends. -/
def conMetadata (ra rb : List Ref) (na nb nc : String) (ronda : Nat)
    (ref : Ref) : Ref :=
  let agente := if ref ∈ ra then na else if ref ∈ rb then nb else nc
  { ref with metadata := some (Metadata.mk agente ronda) }

theorem agregar_nuevas_preserva (ra rb : List Ref) (na nb nc : String)
    (ronda : Nat) :
    ∀ (cands totales : List Ref), SinDuplicadosClave totales →
      SinDuplicadosClave
        (agregar_nuevas ra rb na nb nc ronda cands totales) := by
  intro cands
  induction cands with
  | nil => intro t h; exact h
  | cons ref resto ih =>
    intro t h
    have hstep : agregar_nuevas ra rb na nb nc ronda (ref :: resto) t =
        agregar_nuevas ra rb na nb nc ronda resto
          (if es_duplicado t ref then t
           else t ++ [conMetadata ra rb na nb nc ronda ref]) := rfl
    rw [hstep]
    by_cases hd : es_duplicado t ref = true
    · rw [if_pos hd]
      exact ih t h
    · have hd' : es_duplicado t ref = false := by
        cases hdb : es_duplicado t ref
        · rfl
        · exact absurd hdb hd
      rw [if_neg (by simp [hd'])]
      apply ih
      rw [SinDuplicadosClave, List.pairwise_append]
      refine ⟨h, List.pairwise_singleton _ _, ?_⟩
      intro a ha b hb
      have hb' : b = conMetadata ra rb na nb nc ronda ref := by
        simpa using hb
      subst hb'
      rw [conMetadata, es_duplicado_metadata]
      exact (es_duplicado_false_iff t ref).mp hd' a ha

theorem ejecutar_ronda_preserva (o : ConvOracles) (tot : List Ref) (r : Nat)
    (h : SinDuplicadosClave tot) :
    SinDuplicadosClave (ejecutar_ronda o tot r).1 :=
  agregar_nuevas_preserva _ _ _ _ _ _ _ _ h

theorem ejecutar_bucle_preserva (o : ConvOracles) :
    ∀ (fuel ronda : Nat) (tot : List Ref) (hist : List RondaResult),
      SinDuplicadosClave tot →
      SinDuplicadosClave (ejecutar_bucle o fuel ronda tot hist).1 := by
  intro fuel
  induction fuel with
  | zero => intro _ tot _ h; exact h
  | succ n ih =>
    intro ronda tot hist h
    rw [ejecutar_bucle_succ]
    by_cases hc : (ejecutar_ronda o tot ronda).2.convergencia_alcanzada
    · rw [if_pos hc]
      exact ejecutar_ronda_preserva o tot ronda h
    · rw [if_neg hc]
      exact ih _ _ _ (ejecutar_ronda_preserva o tot ronda h)

/-- Claim C3, corrected: the run's output is pairwise free of duplicates in
the `_es_duplicado` sense — equal non-empty normalized `texto_completo` or
`ley` strings — which is weaker than the claimed registry-id/(law, article)
semantic classes: distinct spellings of the same norm can both survive and
later resolve to the same BOE id. -/
theorem c3_sin_duplicados_clave (o : ConvOracles) (max_rondas umbral : Nat) :
    SinDuplicadosClave
      (((ejecutar o max_rondas umbral).map
        (fun res => res.referencias)).getD []) := by
  cases hg : ejecutar o max_rondas umbral with
  | none => exact List.Pairwise.nil
  | some res =>
    have hb := ejecutar_bucle_preserva o max_rondas 1 [] [] List.Pairwise.nil
    simp only [ejecutar] at hg
    cases hl : (ejecutar_bucle o max_rondas 1 [] []).2.getLast? with
    | none => rw [hl] at hg; exact absurd hg (by simp)
    | some u' =>
      rw [hl] at hg
      injection hg with hg'
      subst hg'
      show SinDuplicadosClave (filtrar_por_confianza umbral
        (ejecutar_bucle o max_rondas 1 [] []).1)
      exact List.Pairwise.sublist (List.filter_sublist _) hb

def refC3a : Ref := { texto_completo := some "LOPJ", ley := some "LOPJ",
                      confianza := some 90 }

def refC3b : Ref := { texto_completo := some "Ley Orgánica 6/1985",
                      ley := some "Ley Orgánica 6/1985",
                      confianza := some 95 }

def ocC3 : ConvOracles where
  llmA := fun r _ => if r = 1 then .ok [refC3a, refC3b] else .ok []
  llmB := fun _ _ => .ok []
  llmC := fun _ _ => .ok []
  iaDedup := fun _ => .error ()

def poC3 : PipelineOracles where
  conv := ocC3
  ctx := fun incompletas _ => incompletas
  tit := fun _ => .error ()
  norm := { euLLM := fun _ => .error (), ambLLM := fun _ _ => .error () }
  siglas_dict := []
  valid := { buscar := { api_buscar := fun _ _ _ => none,
                         verificar_id := fun _ => false, anno_actual := 2024 },
             net := fun _ => none }
  orden_normalizacion := [0, 1]
  orden_validacion := [0, 1]

/-- Counterexample to C3 as stated: "LOPJ" and "Ley Orgánica 6/1985" denote
the same norm; neither `_es_duplicado` nor any later stage merges them, and
both reach the final report resolved to the same registry id
BOE-A-1985-12666. -/
theorem c3_mismo_boe_id_cx :
    ((procesar_tema_model poC3 "texto" 3 60 4 true 70).getD []).map
      (fun r => r.boe_id) =
      [some "BOE-A-1985-12666", some "BOE-A-1985-12666"] ∧
    ((procesar_tema_model poC3 "texto" 3 60 4 true 70).getD []).length = 2 := by
  decide

/-! ## C1 and C10: the validator's demotion path -/

theorem truthyS_some_ne {s : String} (h : s ≠ "") :
    truthyS (some s) = some s := by
  unfold truthyS
  split
  · next heq => exact absurd (by injection heq) h
  · rfl

theorem triple_ne_empty (art b : String) :
    ("Artículo " ++ art ++ " NO existe en " ++ b) ≠ "" := by
  intro hcon
  have h2 : ("Artículo " ++ art ++ " NO existe en " ++ b).data = [] :=
    congrArg String.data hcon
  simp only [string_data_append] at h2
  have h3 : ("Artículo " : String).data = [] :=
    (List.append_eq_nil.mp
      ((List.append_eq_nil.mp ((List.append_eq_nil.mp h2).1)).1)).1
  exact absurd h3 (by decide)

theorem verificar_articulo_en_boe_false (net : BOENet) (b art : String)
    (hex : verificar_articulo_existe net b art = false) :
    verificar_articulo_en_boe true net b art =
      { existe := some false, texto_oficial := none, verificado_boe := true,
        error := some ("Artículo " ++ art ++ " NO existe en " ++ b) } := by
  unfold verificar_articulo_en_boe
  rw [if_neg (by simp), if_neg (by simp [hex])]

theorem validar_referencia_confianza (cfg : ValidCfg) (r : Ref) :
    (validar_referencia cfg r).confianza = r.confianza := by
  simp only [validar_referencia]
  repeat' first
    | rfl
    | split

/-- Full output record of `_validar_referencia` on the path where the BOE-ID
resolves but the article does not exist there (or its norm cannot be
downloaded): the two metadata dict updates, `validada = False`, the NO-existe
reason — and no change to any other key of the reference. -/
theorem validar_no_existe_forma (cfg : ValidCfg) (r : Ref) (info : LeyInfo)
    (b art : String)
    (hinfo : extraer_info_ley r = some info)
    (hb : buscar_ley cfg.buscar info.referencia info.anno
      info.titulo_completo = some b)
    (hart : truthyS r.articulo = some art)
    (hver : cfg.verificar_articulos = true)
    (hex : verificar_articulo_existe cfg.net b art = false) :
    validar_referencia cfg r =
      { r with
        boe_id := some b
        validada := some false
        metadata_validacion := some
          { r.metadata_validacion.getD {} with
            validada := some false
            motivo := some ("Artículo " ++ art ++ " NO existe en el BOE oficial")
            boe_id := some b
            boe_url := some ("https://www.boe.es/buscar/act.php?id=" ++ b)
            articulo_formato_valido := some (validar_formato_articulo art)
            articulo_verificado_boe := some true
            articulo_existe_boe := some (some false)
            error_verificacion :=
              some ("Artículo " ++ art ++ " NO existe en " ++ b) } } := by
  have hv := verificar_articulo_en_boe_false cfg.net b art hex
  have hmsg : truthyS (some ("Artículo " ++ art ++ " NO existe en " ++ b)) =
      some ("Artículo " ++ art ++ " NO existe en " ++ b) :=
    truthyS_some_ne (triple_ne_empty art b)
  simp only [validar_referencia, hinfo, hb, hart, hver, hv, hmsg, if_true]

/-- Claim C1, corrected: on the article-does-not-exist path the validator
demotes the reference — `validada` becomes false with the motive that the
article does not exist in the official BOE — but it never touches
`confianza` (nothing is set to 0) and no hallucinated marker exists; in
fact `_validar_referencia` always leaves `confianza` unchanged. -/
theorem c1_demota_sin_poner_cero (cfg : ValidCfg) (r : Ref) (info : LeyInfo)
    (b art : String)
    (hinfo : extraer_info_ley r = some info)
    (hb : buscar_ley cfg.buscar info.referencia info.anno
      info.titulo_completo = some b)
    (hart : truthyS r.articulo = some art)
    (hver : cfg.verificar_articulos = true)
    (hex : verificar_articulo_existe cfg.net b art = false) :
    (validar_referencia cfg r).validada = some false ∧
    ((validar_referencia cfg r).metadata_validacion.getD {}).motivo =
      some ("Artículo " ++ art ++ " NO existe en el BOE oficial") ∧
    ((validar_referencia cfg r).metadata_validacion.getD
      {}).articulo_existe_boe = some (some false) ∧
    (validar_referencia cfg r).confianza = r.confianza ∧
    ∀ (cfg2 : ValidCfg) (r2 : Ref),
      (validar_referencia cfg2 r2).confianza = r2.confianza := by
  have hforma := validar_no_existe_forma cfg r info b art hinfo hb hart hver hex
  rw [hforma]
  exact ⟨rfl, rfl, rfl, rfl, fun cfg2 r2 => validar_referencia_confianza cfg2 r2⟩

def cfgC1 : ValidCfg where
  buscar := { api_buscar := fun _ _ _ => none, verificar_id := fun _ => false,
              anno_actual := 2024 }
  net := fun _ => some [("a1", "Artículo 1. Texto.")]

def refC1 : Ref := { texto_completo := some "artículo 9999 de la LOPJ",
                     ley := some "LOPJ", articulo := some "9999",
                     confianza := some 90 }

def infoC1 : LeyInfo := (extraer_info_ley refC1).getD ⟨"", none, "", none⟩

/-- Witness for C1 at a LOPJ reference whose article 9999 the (downloadable)
norm does not contain. -/
theorem c1_demota_sin_poner_cero_witness :
    extraer_info_ley refC1 = some infoC1 ∧
    buscar_ley cfgC1.buscar infoC1.referencia infoC1.anno
      infoC1.titulo_completo = some "BOE-A-1985-12666" ∧
    truthyS refC1.articulo = some "9999" ∧
    cfgC1.verificar_articulos = true ∧
    verificar_articulo_existe cfgC1.net "BOE-A-1985-12666" "9999" = false ∧
    ((validar_referencia cfgC1 refC1).validada = some false ∧
     ((validar_referencia cfgC1 refC1).metadata_validacion.getD {}).motivo =
       some ("Artículo " ++ "9999" ++ " NO existe en el BOE oficial") ∧
     ((validar_referencia cfgC1 refC1).metadata_validacion.getD
       {}).articulo_existe_boe = some (some false) ∧
     (validar_referencia cfgC1 refC1).confianza = refC1.confianza ∧
     ∀ (cfg2 : ValidCfg) (r2 : Ref),
       (validar_referencia cfg2 r2).confianza = r2.confianza) :=
  ⟨by decide, by decide, by decide, by decide, by decide,
   c1_demota_sin_poner_cero cfgC1 refC1 infoC1 "BOE-A-1985-12666" "9999"
     (by decide) (by decide) (by decide) (by decide) (by decide)⟩

/-- Counterexample to C1 as stated: the demotion fires — `validada` false,
motive recorded — yet `confianza` stays 90 and is not set to 0. -/
theorem c1_confianza_no_cero_cx :
    (validar_referencia cfgC1 refC1).validada = some false ∧
    ((validar_referencia cfgC1 refC1).metadata_validacion.getD {}).motivo =
      some "Artículo 9999 NO existe en el BOE oficial" ∧
    (validar_referencia cfgC1 refC1).confianza = some 90 ∧
    (validar_referencia cfgC1 refC1).confianza ≠ some 0 := by
  decide

/-- Claim C10: a failed download of the norm makes
`verificar_articulo_existe` return false exactly as a genuinely absent
article does, and the validator's whole output on the two networks is
identical — the reference ends not validated with the reason that the
article does not exist in the official BOE. -/
theorem c10_fallo_red_indistinguible (buscar : SearchOracles)
    (netF netS : BOENet) (r : Ref) (info : LeyInfo) (b art : String)
    (hfail : netF b = none)
    (hexS : verificar_articulo_existe netS b art = false)
    (hinfo : extraer_info_ley r = some info)
    (hb : buscar_ley buscar info.referencia info.anno
      info.titulo_completo = some b)
    (hart : truthyS r.articulo = some art) :
    verificar_articulo_existe netF b art = false ∧
    validar_referencia ⟨true, buscar, netF⟩ r =
      validar_referencia ⟨true, buscar, netS⟩ r ∧
    (validar_referencia ⟨true, buscar, netF⟩ r).validada = some false ∧
    ((validar_referencia ⟨true, buscar, netF⟩ r).metadata_validacion.getD
      {}).motivo =
      some ("Artículo " ++ art ++ " NO existe en el BOE oficial") := by
  have hexF : verificar_articulo_existe netF b art = false := by
    unfold verificar_articulo_existe descargar_ley
    rw [hfail]
  have hF := validar_no_existe_forma ⟨true, buscar, netF⟩ r info b art
    hinfo hb hart rfl hexF
  have hS := validar_no_existe_forma ⟨true, buscar, netS⟩ r info b art
    hinfo hb hart rfl hexS
  refine ⟨hexF, ?_, ?_, ?_⟩
  · rw [hF, hS]
  · rw [hF]
  · rw [hF]
    rfl

def netF10 : BOENet := fun _ => none

def netS10 : BOENet := fun _ => some [("a1", "Artículo 1. Texto.")]

/-- Witness for C10: network failure versus norm-without-the-article, on the
same LOPJ reference. -/
theorem c10_fallo_red_indistinguible_witness :
    netF10 "BOE-A-1985-12666" = none ∧
    verificar_articulo_existe netS10 "BOE-A-1985-12666" "9999" = false ∧
    (verificar_articulo_existe netF10 "BOE-A-1985-12666" "9999" = false ∧
     validar_referencia ⟨true, cfgC1.buscar, netF10⟩ refC1 =
       validar_referencia ⟨true, cfgC1.buscar, netS10⟩ refC1 ∧
     (validar_referencia ⟨true, cfgC1.buscar, netF10⟩ refC1).validada =
       some false ∧
     ((validar_referencia ⟨true, cfgC1.buscar, netF10⟩
        refC1).metadata_validacion.getD {}).motivo =
       some ("Artículo " ++ "9999" ++ " NO existe en el BOE oficial")) :=
  ⟨rfl, by decide,
   c10_fallo_red_indistinguible cfgC1.buscar netF10 netS10 refC1 infoC1
     "BOE-A-1985-12666" "9999" rfl (by decide) (by decide) (by decide)
     (by decide)⟩

/-! ## C5: the confidence thresholds -/

/-- Claim C5: every reference of the final report reaches the configured
threshold (default 70), the convergence-stage filter admits exactly the
references reaching its threshold (default 60, with absent confidence read
as 100 there and as 0 in the final filter). -/
theorem c5_umbral_confianza (po : PipelineOracles) (texto : String)
    (mr ui mw u : Nat) (uc : Bool) (refs : List Ref)
    (h : procesar_tema_model po texto mr ui mw uc u = some refs) :
    (∀ ref ∈ refs, u ≤ ref.confianza.getD 0) ∧
    PipelineOptimizado.default_umbral = 70 ∧
    SistemaConvergencia.default_umbral = 60 ∧
    ∀ (umbral : Nat) (l : List Ref) (r : Ref),
      r ∈ filtrar_por_confianza umbral l →
        umbral ≤ r.confianza.getD 100 := by
  refine ⟨?_, rfl, rfl, ?_⟩
  · intro ref href
    simp only [procesar_tema_model] at h
    cases he : ejecutar po.conv mr ui with
    | none => rw [he] at h; exact absurd h (by simp)
    | some rc =>
      rw [he] at h
      dsimp only at h
      by_cases huc : uc
      · rw [if_neg (by simpa using huc)] at h
        injection h with h'
        subst h'
        have := (List.mem_filter.mp href).2
        exact of_decide_eq_true this
      · rw [if_pos (by simpa using huc)] at h
        exact absurd h (by simp)
  · intro umbral l r hr
    have := (List.mem_filter.mp hr).2
    exact of_decide_eq_true this

def poC5 : PipelineOracles where
  conv := oc2
  ctx := fun incompletas _ => incompletas
  tit := fun _ => .error ()
  norm := { euLLM := fun _ => .error (), ambLLM := fun _ _ => .error () }
  siglas_dict := []
  valid := { buscar := { api_buscar := fun _ _ _ => none,
                         verificar_id := fun _ => false, anno_actual := 2024 },
             net := fun _ => none }
  orden_normalizacion := [0]
  orden_validacion := [0]

def refsC5 : List Ref := (procesar_tema_model poC5 "t" 3 60 4 true 70).getD []

/-- Witness for C5: a one-reference pipeline run whose surviving reference
meets the 70 threshold. -/
theorem c5_umbral_confianza_witness :
    procesar_tema_model poC5 "t" 3 60 4 true 70 = some refsC5 ∧
    ((∀ ref ∈ refsC5, 70 ≤ ref.confianza.getD 0) ∧
     PipelineOptimizado.default_umbral = 70 ∧
     SistemaConvergencia.default_umbral = 60 ∧
     ∀ (umbral : Nat) (l : List Ref) (r : Ref),
       r ∈ filtrar_por_confianza umbral l →
         umbral ≤ r.confianza.getD 100) :=
  ⟨by decide, c5_umbral_confianza poC5 "t" 3 60 4 70 true refsC5 (by decide)⟩

/-! ## C9: order of the synthetic block ids in the article fetcher -/

theorem numero_a_palabras_lopj_grande (m : Nat) :
    numero_a_palabras_lopj (m + 10) =
      if 10 ≤ (m + 10) / 100 then none
      else some (numero_a_palabras_lopj_cuerpo (m + 10)) := rfl

theorem numero_a_palabras_lopj_isSome (k : Nat) (h : k < 1000) :
    (numero_a_palabras_lopj k).isSome = true := by
  by_cases h10 : k < 10
  · interval_cases k <;> rfl
  · obtain ⟨m, rfl⟩ : ∃ m, k = m + 10 := ⟨k - 10, by omega⟩
    rw [numero_a_palabras_lopj_grande,
        if_neg (show ¬ 10 ≤ (m + 10) / 100 by omega)]
    rfl

theorem numero_a_palabras_lopj_none (k : Nat) (h : 1000 ≤ k) :
    numero_a_palabras_lopj k = none := by
  obtain ⟨m, rfl⟩ : ∃ m, k = m + 10 := ⟨k - 10, by omega⟩
  rw [numero_a_palabras_lopj_grande,
      if_pos (show 10 ≤ (m + 10) / 100 by omega)]

/-- Claim C9, corrected in two ways.  For a parsed article number below
1000 the six synthetic ids are tried with the Spanish-word form in second
position, directly after `a<n>` — not fifth as the spec lists — and the
first id whose fetch succeeds determines the result (`findSome?`).  For a
parsed number of 1000 or more (e.g. Código Civil article 1976) the pattern
build raises an uncaught `IndexError`: the direct attempt aborts before
trying any block id. -/
theorem c9_orden_patrones (fetch : String → Option Articulo)
    (id_bloque numero_articulo nb : String) (k : Nat)
    (hnb : nb = hastaPunto (normalizar_numero_articulo numero_articulo))
    (hk : toNatS nb = some k) :
    (k < 1000 →
      ∃ w, numero_a_palabras_lopj k = some w ∧
        patrones_id nb id_bloque =
          some ["a" ++ nb, w, "art" ++ nb,
                "a" ++ nb ++ "bis", "art" ++ nb ++ "bis", id_bloque] ∧
        intentar_descarga_directa fetch id_bloque numero_articulo =
          .ok ((["a" ++ nb, w, "art" ++ nb, "a" ++ nb ++ "bis",
                 "art" ++ nb ++ "bis", id_bloque]).findSome? fetch)) ∧
    (1000 ≤ k →
      numero_a_palabras_lopj k = none ∧
      patrones_id nb id_bloque = none ∧
      intentar_descarga_directa fetch id_bloque numero_articulo =
        .error ()) := by
  have hdef : intentar_descarga_directa fetch id_bloque numero_articulo =
      (match patrones_id nb id_bloque with
       | none => (.error () : Except Unit (Option Articulo))
       | some patrones => .ok (patrones.findSome? fetch)) := by
    rw [hnb]
    rfl
  constructor
  · intro hlt
    obtain ⟨w, hw⟩ :=
      Option.isSome_iff_exists.mp (numero_a_palabras_lopj_isSome k hlt)
    have hp : patrones_id nb id_bloque =
        some ["a" ++ nb, w, "art" ++ nb,
              "a" ++ nb ++ "bis", "art" ++ nb ++ "bis", id_bloque] := by
      unfold patrones_id
      rw [hk]
      dsimp only
      rw [hw]
      rfl
    refine ⟨w, hw, hp, ?_⟩
    rw [hdef, hp]
  · intro hge
    have hn := numero_a_palabras_lopj_none k hge
    have hp : patrones_id nb id_bloque = none := by
      unfold patrones_id
      rw [hk]
      dsimp only
      rw [hn]
    refine ⟨hn, hp, ?_⟩
    rw [hdef, hp]

/-- Witness for C9 at article number 117 (the LOPJ pattern, in range). -/
theorem c9_orden_patrones_witness :
    ("117" : String) = hastaPunto (normalizar_numero_articulo "117") ∧
    toNatS "117" = some 117 ∧
    ((117 < 1000 →
      ∃ w, numero_a_palabras_lopj 117 = some w ∧
        patrones_id "117" "a117" =
          some ["a" ++ "117", w, "art" ++ "117",
                "a" ++ "117" ++ "bis", "art" ++ "117" ++ "bis", "a117"] ∧
        intentar_descarga_directa (fun _ => none) "a117" "117" =
          .ok ((["a" ++ "117", w, "art" ++ "117", "a" ++ "117" ++ "bis",
                 "art" ++ "117" ++ "bis",
                 "a117"]).findSome? (fun _ => none))) ∧
     (1000 ≤ 117 →
      numero_a_palabras_lopj 117 = none ∧
      patrones_id "117" "a117" = none ∧
      intentar_descarga_directa (fun _ => none) "a117" "117" =
        .error ())) :=
  ⟨by decide, by decide,
   c9_orden_patrones (fun _ => none) "a117" "117" "117" 117 (by decide)
     (by decide)⟩

/-- Counterexample to C9 as stated: for article 117 the Spanish-word id
`acientodiecisiete` is tried second, not fifth; and for article 1976 the
direct attempt raises before trying any id, even with a fetch that always
succeeds. -/
theorem c9_orden_patrones_cx :
    patrones_id "117" "hint117" =
      some ["a117", "acientodiecisiete", "art117", "a117bis", "art117bis",
            "hint117"] ∧
    patrones_id "117" "hint117" ≠
      some ["a117", "art117", "a117bis", "art117bis", "acientodiecisiete",
            "hint117"] ∧
    intentar_descarga_directa (fun _ => some {}) "a1976" "1976" =
      .error () := by
  refine ⟨by decide, by decide, ?_⟩
  rfl

end LexAgents


